import Mathlib

/-!
# Projeto Final Generation: controllers for `usuarios`, `tema` and `postagem`

A shallow embedding of the three controller modules
(`src/controladores/usuarios.js`, `temas.js`, `postagem.js`) together with a
model of the relational store they talk to through the query builder.

* JavaScript strings are Lean strings (sequences of Unicode scalar values;
  a lone surrogate is not represented); `.length` is the number of UTF-16 code
  units (`jsLength`).
* Request bodies are taken at the types that the swagger blocks of the
  handlers declare: a string field is absent or a string, an integer field is
  absent or an integer, a path parameter `id` is an integer.
* The store is not part of the controllers: it is modelled from the
  specification (one table per resource, generated ids).  Every store
  operation may fail with an error message, chosen by an oracle indexed by the
  number of operations issued so far.
-/

namespace Generation

/-! ## JavaScript strings and the e-mail pattern -/

/-- Number of UTF-16 code units of one character. -/
def unidades (c : Char) : Nat :=
  if c.toNat < 0x10000 then 1 else 2

/-- The `.length` of a JavaScript string: its number of UTF-16 code units. -/
def jsLength (s : String) : Nat :=
  (s.data.map unidades).sum

/-- The test `!v || v.length < n` on a body field that is absent or a string. -/
def faltaOuCurto (v : Option String) (n : Nat) : Bool :=
  match v with
  | none => true
  | some s => s.data.isEmpty || decide (jsLength s < n)

/-- The class `\s` of a JavaScript regular expression. -/
def jsEspaco (c : Char) : Bool :=
  let n := c.toNat
  (9 ≤ n && n ≤ 13) || n == 0x20 || n == 0xA0 || n == 0x1680 ||
  (0x2000 ≤ n && n ≤ 0x200A) || n == 0x2028 || n == 0x2029 || n == 0x202F ||
  n == 0x205F || n == 0x3000 || n == 0xFEFF

/-- One item of a pattern: a character class, taken once or one or more times (`+`). -/
inductive Item where
  | um (p : Char → Bool)
  | mais (p : Char → Bool)

/-- Whether the whole input matches the sequence of items (a pattern between `^` and `$`). -/
def casa : List Item → List Char → Bool
  | [], [] => true
  | [], _ :: _ => false
  | _ :: _, [] => false
  | Item.um p :: r, c :: s => p c && casa r s
  | Item.mais p :: r, c :: s => p c && (casa r s || casa (Item.mais p :: r) s)

/-- The class `[^\s@]`. -/
def naoEspacoNemArroba (c : Char) : Bool :=
  !(jsEspaco c || c == '@')

/-- The pattern `/^[^\s@]+@[^\s@]+\.[^\s@]+$/` of `usuarios.js`. -/
def emailRegex : List Item :=
  [Item.mais naoEspacoNemArroba, Item.um (· == '@'), Item.mais naoEspacoNemArroba,
   Item.um (· == '.'), Item.mais naoEspacoNemArroba]

/-- The call `emailRegex.test(email)` on a string. -/
def emailRegexTest (email : String) : Bool :=
  casa emailRegex email.data

/-- The test `!email || !emailRegex.test(email)`. -/
def emailInvalido (v : Option String) : Bool :=
  match v with
  | none => true
  | some s => s.data.isEmpty || !emailRegexTest s

/-- The `local@domain.tld` syntax in the words of the specification: no
whitespace, exactly one `@`, a non-empty part before it, and after it a part
that contains a `.` with at least one character on each side. -/
def SintaxeLocalDominioTld (email : String) : Prop :=
  (∀ c ∈ email.data, jsEspaco c = false) ∧
  email.data.count '@' = 1 ∧
  ∃ loc dom : List Char, email.data = loc ++ '@' :: dom ∧ loc ≠ [] ∧
    ∃ a b : List Char, dom = a ++ '.' :: b ∧ a ≠ [] ∧ b ≠ []

/-! ## The store

The store is reached through the query builder configured in `../conexao`,
which is not part of the controllers.  -/

/-- A row of table `usuarios`. -/
structure Usuario where
  id : Int
  nome : Option String
  email : Option String
  foto : Option String
  deriving DecidableEq, Repr

/-- A row of table `tema`. -/
structure Tema where
  id : Int
  descricao : Option String
  deriving DecidableEq, Repr

/-- A row of table `postagem`. -/
structure Postagem where
  id : Int
  titulo : Option String
  texto : Option String
  data : Nat
  usuario_id : Option Int
  tema_id : Option Int
  deriving DecidableEq, Repr

/-- Modelled from the spec: the relational store behind `../conexao` (absent
from the controllers).  One table per resource, rows in insertion order, and
for each table the next id to generate ("id: generated, unique, immutable").
A text column holds a string or NULL.  An update leaves a column whose value is
absent from the body as it is, as the query builder does. -/
structure Store where
  usuarios : List Usuario
  tema : List Tema
  postagem : List Postagem
  seqUsuarios : Int
  seqTema : Int
  seqPostagem : Int
  deriving DecidableEq, Repr

/-- The store with no rows, ids starting at 1. -/
def Store.vazio : Store :=
  { usuarios := [], tema := [], postagem := [], seqUsuarios := 1, seqTema := 1, seqPostagem := 1 }

/-- The store together with the number of store operations issued so far. -/
structure Mundo where
  store : Store
  ops : Nat
  deriving DecidableEq, Repr

/-- The failure oracle: whether the store operation with a given number fails
(a StoreError), and with which message. -/
abbrev Falhas := Nat → Option String

/-- The oracle of a store that never fails. -/
def semFalhas : Falhas := fun _ => none

/-- Modelled from the spec: one awaited query.  It is counted, and it either
fails with the message of the oracle, leaving the rows as they are, or runs. -/
def knex {α : Type} (f : Falhas) (q : Store → α × Store) (w : Mundo) : Except String α × Mundo :=
  match f w.ops with
  | some e => (Except.error e, { store := w.store, ops := w.ops + 1 })
  | none => (Except.ok (q w.store).1, { store := (q w.store).2, ops := w.ops + 1 })

/-- The message of the query builder for an `undefined` value in a `where`. -/
def erroBindingIndefinido : String :=
  "Undefined binding(s) detected when compiling FIRST query"

/-- Modelled from the spec: an awaited query whose `where` value comes from the
body.  The query builder rejects an `undefined` value before reaching the store. -/
def knexWhere {α β : Type} (f : Falhas) (v : Option β) (q : β → Store → α × Store) (w : Mundo) :
    Except String α × Mundo :=
  match v with
  | none => (Except.error erroBindingIndefinido, w)
  | some b => knex f (q b) w

/-- The value of a column after an update: the query builder drops a key whose
value is `undefined`, so an absent value leaves the column as it is. -/
def manter {α : Type} (novo antigo : Option α) : Option α :=
  match novo with
  | some v => some v
  | none => antigo

/-- The message of the query builder for an update whose values are all `undefined`. -/
def erroUpdateVazio : String :=
  "Empty .update() call detected! Update data does not contain any values to update. " ++
    "This will result in a faulty query."

/-- An awaited `update`.  When every value is `undefined` (`vazio`), the query
builder throws before reaching the store. -/
def knexUpdate {α : Type} (f : Falhas) (vazio : Bool) (q : Store → α × Store) (w : Mundo) :
    Except String α × Mundo :=
  if vazio then (Except.error erroUpdateVazio, w) else knex f q w

/-- The columns `['nome', 'email', 'foto']` of a user row. -/
structure CamposUsuario where
  nome : Option String
  email : Option String
  foto : Option String
  deriving DecidableEq, Repr

/-- The projection `returning(['nome', 'email', 'foto'])` of a row. -/
def Usuario.campos (u : Usuario) : CamposUsuario :=
  { nome := u.nome, email := u.email, foto := u.foto }

/-- Query `knex('usuarios')`: all rows. -/
def todosUsuarios (s : Store) : List Usuario × Store := (s.usuarios, s)

/-- Query `knex('usuarios').where({ email }).first()`. -/
def usuarioPorEmail (email : String) (s : Store) : Option Usuario × Store :=
  (s.usuarios.find? (fun u => decide (u.email = some email)), s)

/-- Query `knex('usuarios').where({ id }).first()`. -/
def usuarioPorId (id : Int) (s : Store) : Option Usuario × Store :=
  (s.usuarios.find? (fun u => decide (u.id = id)), s)

/-- Query `knex('usuarios').insert({ nome, email, foto }).returning([...])`:
the new row gets the next id; an absent value is stored as NULL. -/
def inserirUsuario (nome email foto : Option String) (s : Store) :
    List CamposUsuario × Store :=
  let u : Usuario := { id := s.seqUsuarios, nome := nome, email := email, foto := foto }
  ([u.campos], { s with usuarios := s.usuarios ++ [u], seqUsuarios := s.seqUsuarios + 1 })

/-- The row of id `id` after `update({ nome, email, foto })`: a column whose
value is absent keeps its value. -/
def Usuario.atualizado (id : Int) (nome email foto : Option String) (u : Usuario) : Usuario :=
  if u.id = id then
    { id := u.id, nome := manter nome u.nome, email := manter email u.email,
      foto := manter foto u.foto }
  else u

/-- Query `knex('usuarios').where({ id }).update({ nome, email, foto }).returning([...])`:
returns the updated rows. -/
def atualizarUsuarioOnde (id : Int) (nome email foto : Option String) (s : Store) :
    List CamposUsuario × Store :=
  (((s.usuarios.filter (fun u => decide (u.id = id))).map
      (fun u => (Usuario.atualizado id nome email foto u).campos)),
   { s with usuarios := s.usuarios.map (Usuario.atualizado id nome email foto) })

/-- Query `knex('usuarios').where({ id }).del()`: returns the number of deleted rows. -/
def apagarUsuarioOnde (id : Int) (s : Store) : Nat × Store :=
  ((s.usuarios.filter (fun u => decide (u.id = id))).length,
   { s with usuarios := s.usuarios.filter (fun u => !decide (u.id = id)) })

/-- Query `knex('tema').select('*')`. -/
def todosTemas (s : Store) : List Tema × Store := (s.tema, s)

/-- Query `knex('tema').where({ id }).first()`. -/
def temaPorId (id : Int) (s : Store) : Option Tema × Store :=
  (s.tema.find? (fun t => decide (t.id = id)), s)

/-- Query `knex('tema').insert({ descricao }).returning('*')`. -/
def inserirTema (descricao : Option String) (s : Store) : List Tema × Store :=
  let t : Tema := { id := s.seqTema, descricao := descricao }
  ([t], { s with tema := s.tema ++ [t], seqTema := s.seqTema + 1 })

/-- The row of id `id` after `update({ descricao })`: an absent value keeps the column. -/
def Tema.atualizado (id : Int) (descricao : Option String) (t : Tema) : Tema :=
  if t.id = id then { id := t.id, descricao := manter descricao t.descricao } else t

/-- Query `knex('tema').where({ id }).update({ descricao }).returning("*")`. -/
def atualizarTemaOnde (id : Int) (descricao : Option String) (s : Store) : List Tema × Store :=
  (((s.tema.filter (fun t => decide (t.id = id))).map (Tema.atualizado id descricao)),
   { s with tema := s.tema.map (Tema.atualizado id descricao) })

/-- Query `knex('tema').where({ id }).del()`. -/
def apagarTemaOnde (id : Int) (s : Store) : Nat × Store :=
  ((s.tema.filter (fun t => decide (t.id = id))).length,
   { s with tema := s.tema.filter (fun t => !decide (t.id = id)) })

/-- Query `knex('postagem').select('*')`. -/
def todasPostagens (s : Store) : List Postagem × Store := (s.postagem, s)

/-- Query `knex('postagem').where({ id }).first()`. -/
def postagemPorId (id : Int) (s : Store) : Option Postagem × Store :=
  (s.postagem.find? (fun p => decide (p.id = id)), s)

/-- Query `knex('postagem').insert({ titulo, texto, usuario_id, tema_id }).returning("*")`:
the store assigns the id and the creation time `agora`. -/
def inserirPostagem (agora : Nat) (titulo texto : Option String) (usuario_id tema_id : Option Int)
    (s : Store) : List Postagem × Store :=
  let p : Postagem := { id := s.seqPostagem, titulo := titulo, texto := texto, data := agora,
                        usuario_id := usuario_id, tema_id := tema_id }
  ([p], { s with postagem := s.postagem ++ [p], seqPostagem := s.seqPostagem + 1 })

/-- The row of id `id` after `update({ titulo, texto, usuario_id, tema_id })`:
a column whose value is absent keeps its value. -/
def Postagem.atualizada (id : Int) (titulo texto : Option String) (usuario_id tema_id : Option Int)
    (p : Postagem) : Postagem :=
  if p.id = id then
    { id := p.id, titulo := manter titulo p.titulo, texto := manter texto p.texto,
      data := p.data, usuario_id := manter usuario_id p.usuario_id,
      tema_id := manter tema_id p.tema_id }
  else p

/-- Query `knex('postagem').where({ id }).update({ ... }).returning("*")`. -/
def atualizarPostagemOnde (id : Int) (titulo texto : Option String)
    (usuario_id tema_id : Option Int) (s : Store) : List Postagem × Store :=
  (((s.postagem.filter (fun p => decide (p.id = id))).map
      (Postagem.atualizada id titulo texto usuario_id tema_id)),
   { s with postagem := s.postagem.map (Postagem.atualizada id titulo texto usuario_id tema_id) })

/-- Query `knex('postagem').where({ id }).del()`. -/
def apagarPostagemOnde (id : Int) (s : Store) : Nat × Store :=
  ((s.postagem.filter (fun p => decide (p.id = id))).length,
   { s with postagem := s.postagem.filter (fun p => !decide (p.id = id)) })

/-- Query `knex('usuarios').where('id', usuario_id).select('nome').first()`:
the `nome` column of the first matching row, if any. -/
def nomeDoUsuario (usuario_id : Int) (s : Store) : Option (Option String) × Store :=
  ((s.usuarios.find? (fun u => decide (u.id = usuario_id))).map (fun u => u.nome), s)

/-- Query `knex('tema').where('id', tema_id).select('descricao').first()`. -/
def descricaoDoTema (tema_id : Int) (s : Store) : Option (Option String) × Store :=
  ((s.tema.find? (fun t => decide (t.id = tema_id))).map (fun t => t.descricao), s)

/-! ## Requests and responses -/

/-- The body of `POST /usuarios` and `PUT /usuarios/:id`. -/
structure CorpoUsuario where
  nome : Option String
  email : Option String
  foto : Option String
  deriving DecidableEq, Repr

/-- The body of `POST /temas` and `PUT /temas/:id`. -/
structure CorpoTema where
  descricao : Option String
  deriving DecidableEq, Repr

/-- The body of `POST /postagem` and `PUT /postagem/:id`. -/
structure CorpoPostagem where
  titulo : Option String
  texto : Option String
  usuario_id : Option Int
  tema_id : Option Int
  deriving DecidableEq, Repr

/-- The object `retorno` built by `criarPostagem` and `atualizarPostagem`. -/
structure Retorno where
  id : Int
  titulo : Option String
  texto : Option String
  data : Nat
  usuario_nome : Option String
  tema_descricao : Option String
  deriving DecidableEq, Repr

/-- What is passed to `res.json`. -/
inductive Json where
  | texto (s : String)
  | campos (c : CamposUsuario)
  | usuario (u : Usuario)
  | usuarios (us : List Usuario)
  | tema (t : Tema)
  | temas (ts : List Tema)
  | postagem (p : Postagem)
  | postagens (ps : List Postagem)
  | retorno (r : Retorno)
  | indefinido
  deriving DecidableEq, Repr

/-- Whether a response body is a plain string. -/
def Json.eTexto : Json → Bool
  | Json.texto _ => true
  | _ => false

/-- How a handler ends: it sends `res.status(status).json(corpo)`, or its
promise is rejected with an error that nothing catches and no response is sent. -/
inductive Saida where
  | resposta (status : Nat) (corpo : Json)
  | rejeitada (erro : String)
  deriving DecidableEq, Repr

/-- The value `xs[0]` passed to `res.json`. -/
def primeiro {α : Type} (k : α → Json) (xs : List α) : Json :=
  match xs.head? with
  | some x => k x
  | none => Json.indefinido

/-! ## `controladores/usuarios.js` -/

/-- Handler `cadastrarUsuario` (`POST /usuarios`).  The test `!usuario` is on
the array returned by the insert, which is never falsy. -/
def cadastrarUsuario (f : Falhas) (body : CorpoUsuario) (w : Mundo) : Saida × Mundo :=
  if faltaOuCurto body.nome 3 then
    (Saida.resposta 400 (Json.texto "O nome é obrigatório e deve ter no mínimo 3 caracteres."), w)
  else if emailInvalido body.email then
    (Saida.resposta 400 (Json.texto "O e-mail é obrigatório e deve ter um formato válido."), w)
  else
    match knexWhere f body.email usuarioPorEmail w with
    | (Except.error e, w1) => (Saida.resposta 400 (Json.texto e), w1)
    | (Except.ok (some _), w1) => (Saida.resposta 400 (Json.texto "O email já existe"), w1)
    | (Except.ok none, w1) =>
      match knex f (inserirUsuario body.nome body.email body.foto) w1 with
      | (Except.error e, w2) => (Saida.resposta 400 (Json.texto e), w2)
      | (Except.ok usuario, w2) => (Saida.resposta 200 (primeiro Json.campos usuario), w2)

/-- Handler `listarUsuarios` (`GET /usuarios`): the query is awaited outside any `try`. -/
def listarUsuarios (f : Falhas) (w : Mundo) : Saida × Mundo :=
  match knex f todosUsuarios w with
  | (Except.error e, w1) => (Saida.rejeitada e, w1)
  | (Except.ok usuarios, w1) => (Saida.resposta 200 (Json.usuarios usuarios), w1)

/-- Handler `listarUsuarioPorID` (`GET /usuarios/:id`). -/
def listarUsuarioPorID (f : Falhas) (id : Int) (w : Mundo) : Saida × Mundo :=
  match knex f (usuarioPorId id) w with
  | (Except.error e, w1) => (Saida.resposta 404 (Json.texto e), w1)
  | (Except.ok none, w1) => (Saida.resposta 400 (Json.texto "Usuario não encontrado"), w1)
  | (Except.ok (some usuarioEncontrado), w1) =>
    (Saida.resposta 200 (Json.usuario usuarioEncontrado), w1)

/-- Handler `atualizarUsuario` (`PUT /usuarios/:id`).  The test
`!usuarioAtualizado` is on the array returned by the update, which is never
falsy.  After the two validations `nome` and `email` are present, so the
update is never empty. -/
def atualizarUsuario (f : Falhas) (id : Int) (body : CorpoUsuario) (w : Mundo) : Saida × Mundo :=
  if faltaOuCurto body.nome 3 then
    (Saida.resposta 400 (Json.texto "O nome é obrigatório e deve ter no mínimo 3 caracteres."), w)
  else if emailInvalido body.email then
    (Saida.resposta 400 (Json.texto "O e-mail é obrigatório e deve ter um formato válido."), w)
  else
    match knex f (usuarioPorId id) w with
    | (Except.error e, w1) => (Saida.resposta 400 (Json.texto e), w1)
    | (Except.ok none, w1) => (Saida.resposta 404 (Json.texto "Usuário não encontrado."), w1)
    | (Except.ok (some _), w1) =>
      match knex f (atualizarUsuarioOnde id body.nome body.email body.foto) w1 with
      | (Except.error e, w2) => (Saida.resposta 400 (Json.texto e), w2)
      | (Except.ok usuarioAtualizado, w2) =>
        (Saida.resposta 200 (primeiro Json.campos usuarioAtualizado), w2)

/-- Handler `excluirUsuario` (`DELETE /usuarios/:id`).  The test
`!excluirUsuario` is on the number of deleted rows. -/
def excluirUsuario (f : Falhas) (id : Int) (w : Mundo) : Saida × Mundo :=
  match knex f (usuarioPorId id) w with
  | (Except.error e, w1) => (Saida.resposta 400 (Json.texto e), w1)
  | (Except.ok none, w1) => (Saida.resposta 404 (Json.texto "Usuario não encontrado"), w1)
  | (Except.ok (some _), w1) =>
    match knex f (apagarUsuarioOnde id) w1 with
    | (Except.error e, w2) => (Saida.resposta 400 (Json.texto e), w2)
    | (Except.ok excluidos, w2) =>
      if excluidos = 0 then
        (Saida.resposta 400 (Json.texto "Usuario não foi excluído"), w2)
      else
        (Saida.resposta 200 (Json.texto "Usuario excluído com sucesso."), w2)

/-! ## `controladores/temas.js` -/

/-- Handler `criarTemas` (`POST /temas`). -/
def criarTemas (f : Falhas) (body : CorpoTema) (w : Mundo) : Saida × Mundo :=
  if faltaOuCurto body.descricao 3 then
    (Saida.resposta 400
      (Json.texto "A descrição é obrigatório e deve ter no mínimo 3 caracteres."), w)
  else
    match knex f (inserirTema body.descricao) w with
    | (Except.error e, w1) => (Saida.resposta 400 (Json.texto e), w1)
    | (Except.ok novoTema, w1) => (Saida.resposta 200 (primeiro Json.tema novoTema), w1)

/-- Handler `listarTemas` (`GET /temas`). -/
def listarTemas (f : Falhas) (w : Mundo) : Saida × Mundo :=
  match knex f todosTemas w with
  | (Except.error e, w1) => (Saida.resposta 400 (Json.texto e), w1)
  | (Except.ok temas, w1) => (Saida.resposta 200 (Json.temas temas), w1)

/-- Handler `listarTemaPorId` (`GET /temas/:id`). -/
def listarTemaPorId (f : Falhas) (id : Int) (w : Mundo) : Saida × Mundo :=
  match knex f (temaPorId id) w with
  | (Except.error e, w1) => (Saida.resposta 400 (Json.texto e), w1)
  | (Except.ok none, w1) => (Saida.resposta 404 (Json.texto "Tema não encontrado."), w1)
  | (Except.ok (some tema), w1) => (Saida.resposta 200 (Json.tema tema), w1)

/-- Handler `atualizarTema` (`PUT /temas/:id`). -/
def atualizarTema (f : Falhas) (id : Int) (body : CorpoTema) (w : Mundo) : Saida × Mundo :=
  match knex f (temaPorId id) w with
  | (Except.error e, w1) => (Saida.resposta 400 (Json.texto e), w1)
  | (Except.ok none, w1) => (Saida.resposta 404 (Json.texto "Tema não encontrado."), w1)
  | (Except.ok (some _), w1) =>
    match knexUpdate f body.descricao.isNone (atualizarTemaOnde id body.descricao) w1 with
    | (Except.error e, w2) => (Saida.resposta 400 (Json.texto e), w2)
    | (Except.ok temaAtualizado, w2) =>
      (Saida.resposta 200 (primeiro Json.tema temaAtualizado), w2)

/-- Handler `excluirTema` (`DELETE /temas/:id`). -/
def excluirTema (f : Falhas) (id : Int) (w : Mundo) : Saida × Mundo :=
  match knex f (temaPorId id) w with
  | (Except.error e, w1) => (Saida.resposta 400 (Json.texto e), w1)
  | (Except.ok none, w1) => (Saida.resposta 404 (Json.texto "Tema não encontrado."), w1)
  | (Except.ok (some _), w1) =>
    match knex f (apagarTemaOnde id) w1 with
    | (Except.error e, w2) => (Saida.resposta 400 (Json.texto e), w2)
    | (Except.ok _, w2) => (Saida.resposta 200 (Json.texto "Tema excluido com sucesso."), w2)

/-! ## `controladores/postagem.js` -/

/-- The message of the `TypeError` thrown when property `campo` of `undefined` is read. -/
def erroLeitura (campo : String) : String :=
  "Cannot read properties of undefined (reading " ++ String.singleton (Char.ofNat 39) ++ campo ++
    String.singleton (Char.ofNat 39) ++ ")"

/-- The object literal `retorno`: the fields of the first returned row, then
`usuario.nome`, then `tema.descricao`; reading a property of `undefined` throws. -/
def montarRetorno (linhas : List Postagem) (usuario tema : Option (Option String)) :
    Except String Retorno :=
  match linhas.head? with
  | none => Except.error (erroLeitura "id")
  | some p =>
    match usuario with
    | none => Except.error (erroLeitura "nome")
    | some nome =>
      match tema with
      | none => Except.error (erroLeitura "descricao")
      | some descricao =>
        Except.ok { id := p.id, titulo := p.titulo, texto := p.texto, data := p.data,
                    usuario_nome := nome, tema_descricao := descricao }

/-- Handler `criarPostagem` (`POST /postagem`); `agora` is the time the store
assigns to the new row. -/
def criarPostagem (f : Falhas) (agora : Nat) (body : CorpoPostagem) (w : Mundo) : Saida × Mundo :=
  if faltaOuCurto body.titulo 5 then
    (Saida.resposta 400 (Json.texto "O título é obrigatório e deve ter no mínimo 5 caracteres."), w)
  else if faltaOuCurto body.texto 10 then
    (Saida.resposta 400 (Json.texto "O texto é obrigatório e deve ter no mínimo 10 caracteres."), w)
  else
    match knex f (inserirPostagem agora body.titulo body.texto body.usuario_id body.tema_id) w with
    | (Except.error e, w1) => (Saida.resposta 400 (Json.texto e), w1)
    | (Except.ok novaPostagem, w1) =>
      match knexWhere f body.usuario_id nomeDoUsuario w1 with
      | (Except.error e, w2) => (Saida.resposta 400 (Json.texto e), w2)
      | (Except.ok usuario, w2) =>
        match knexWhere f body.tema_id descricaoDoTema w2 with
        | (Except.error e, w3) => (Saida.resposta 400 (Json.texto e), w3)
        | (Except.ok tema, w3) =>
          match montarRetorno novaPostagem usuario tema with
          | Except.error e => (Saida.resposta 400 (Json.texto e), w3)
          | Except.ok retorno => (Saida.resposta 200 (Json.retorno retorno), w3)

/-- Handler `listarPostagens` (`GET /postagem`). -/
def listarPostagens (f : Falhas) (w : Mundo) : Saida × Mundo :=
  match knex f todasPostagens w with
  | (Except.error e, w1) => (Saida.resposta 400 (Json.texto e), w1)
  | (Except.ok postagens, w1) => (Saida.resposta 200 (Json.postagens postagens), w1)

/-- Handler `listarPostagemPorId` (`GET /postagem/:id`). -/
def listarPostagemPorId (f : Falhas) (id : Int) (w : Mundo) : Saida × Mundo :=
  match knex f (postagemPorId id) w with
  | (Except.error e, w1) => (Saida.resposta 400 (Json.texto e), w1)
  | (Except.ok none, w1) => (Saida.resposta 400 (Json.texto "Postagem não encontrada."), w1)
  | (Except.ok (some postagem), w1) => (Saida.resposta 200 (Json.postagem postagem), w1)

/-- Handler `atualizarPostagem` (`PUT /postagem/:id`). -/
def atualizarPostagem (f : Falhas) (id : Int) (body : CorpoPostagem) (w : Mundo) : Saida × Mundo :=
  match knex f (postagemPorId id) w with
  | (Except.error e, w1) => (Saida.resposta 400 (Json.texto e), w1)
  | (Except.ok none, w1) => (Saida.resposta 400 (Json.texto "Postagem não encontrada."), w1)
  | (Except.ok (some _), w1) =>
    match knexUpdate f
        (body.titulo.isNone && body.texto.isNone && body.usuario_id.isNone && body.tema_id.isNone)
        (atualizarPostagemOnde id body.titulo body.texto body.usuario_id body.tema_id) w1 with
    | (Except.error e, w2) => (Saida.resposta 400 (Json.texto e), w2)
    | (Except.ok postagemAtualizada, w2) =>
      match knexWhere f body.usuario_id nomeDoUsuario w2 with
      | (Except.error e, w3) => (Saida.resposta 400 (Json.texto e), w3)
      | (Except.ok usuario, w3) =>
        match knexWhere f body.tema_id descricaoDoTema w3 with
        | (Except.error e, w4) => (Saida.resposta 400 (Json.texto e), w4)
        | (Except.ok tema, w4) =>
          match montarRetorno postagemAtualizada usuario tema with
          | Except.error e => (Saida.resposta 400 (Json.texto e), w4)
          | Except.ok retorno => (Saida.resposta 200 (Json.retorno retorno), w4)

/-- Handler `excluirPostagem` (`DELETE /postagem/:id`). -/
def excluirPostagem (f : Falhas) (id : Int) (w : Mundo) : Saida × Mundo :=
  match knex f (postagemPorId id) w with
  | (Except.error e, w1) => (Saida.resposta 400 (Json.texto e), w1)
  | (Except.ok none, w1) => (Saida.resposta 400 (Json.texto "Postagem não encontrada."), w1)
  | (Except.ok (some _), w1) =>
    match knex f (apagarPostagemOnde id) w1 with
    | (Except.error e, w2) => (Saida.resposta 400 (Json.texto e), w2)
    | (Except.ok _, w2) => (Saida.resposta 200 (Json.texto "Postagem excluida com sucesso"), w2)

/-! ## Sequences of user requests -/

/-- A request to the user resource. -/
inductive PedidoUsuario where
  | criar (body : CorpoUsuario)
  | atualizar (id : Int) (body : CorpoUsuario)
  | excluir (id : Int)
  deriving DecidableEq, Repr

/-- Runs one user request. -/
def PedidoUsuario.executar (f : Falhas) (p : PedidoUsuario) (w : Mundo) : Saida × Mundo :=
  match p with
  | PedidoUsuario.criar body => cadastrarUsuario f body w
  | PedidoUsuario.atualizar id body => atualizarUsuario f id body w
  | PedidoUsuario.excluir id => excluirUsuario f id w

/-- The world after a sequence of user requests, served one after the other. -/
def executarTodos (f : Falhas) (ps : List PedidoUsuario) (w : Mundo) : Mundo :=
  ps.foldl (fun w p => (p.executar f w).2) w

/-- No two rows of the user table have the same e-mail. -/
def emailsUnicos (s : Store) : Prop :=
  s.usuarios.Pairwise (fun u v => u.email ≠ v.email)

/-- The ids of a table are pairwise distinct. -/
def idsDistintos {α : Type} (id : α → Int) (linhas : List α) : Prop :=
  linhas.Pairwise (fun a b => id a ≠ id b)

/-- The ids of every table are pairwise distinct and below the next id to generate. -/
def Store.idsGerados (s : Store) : Prop :=
  (idsDistintos Usuario.id s.usuarios ∧ ∀ u ∈ s.usuarios, u.id < s.seqUsuarios) ∧
  (idsDistintos Tema.id s.tema ∧ ∀ t ∈ s.tema, t.id < s.seqTema) ∧
  (idsDistintos Postagem.id s.postagem ∧ ∀ p ∈ s.postagem, p.id < s.seqPostagem)

/-- The world after `n` requests served by `h`, one after the other. -/
def repetir (h : Mundo → Saida × Mundo) (n : Nat) (w : Mundo) : Mundo :=
  (fun v => (h v).2)^[n] w

/-- A handler catches store failures: whenever one of the store operations it
issues fails, it answers with a status other than 200 and a plain-string body. -/
def CapturaFalhas (h : Falhas → Mundo → Saida × Mundo) : Prop :=
  ∀ f w, (∃ k, w.ops ≤ k ∧ k < (h f w).2.ops ∧ f k ≠ none) →
    ∃ st msg, st ≠ 200 ∧ (h f w).1 = Saida.resposta st (Json.texto msg)

/-! ## The e-mail pattern against the `local@domain.tld` syntax -/

theorem casa_nil_iff (s : List Char) : casa [] s = true ↔ s = [] := by
  cases s <;> simp [casa]

theorem casa_um_iff (p : Char → Bool) (r : List Item) (s : List Char) :
    casa (Item.um p :: r) s = true ↔ ∃ c v, s = c :: v ∧ p c = true ∧ casa r v = true := by
  cases s with
  | nil => simp [casa]
  | cons c t =>
    simp only [casa, Bool.and_eq_true, List.cons.injEq]
    constructor
    · rintro ⟨hc, h⟩
      exact ⟨c, t, ⟨rfl, rfl⟩, hc, h⟩
    · rintro ⟨d, v, ⟨rfl, rfl⟩, hc, h⟩
      exact ⟨hc, h⟩

theorem casa_mais_iff (p : Char → Bool) (r : List Item) (s : List Char) :
    casa (Item.mais p :: r) s = true ↔
      ∃ u v, s = u ++ v ∧ u ≠ [] ∧ (∀ c ∈ u, p c = true) ∧ casa r v = true := by
  induction s with
  | nil =>
    simp only [casa, Bool.false_eq_true, false_iff]
    rintro ⟨u, v, h, hu, -⟩
    cases u with
    | nil => exact hu rfl
    | cons d u => simp at h
  | cons c t ih =>
    simp only [casa, Bool.and_eq_true, Bool.or_eq_true]
    constructor
    · rintro ⟨hc, h | h⟩
      · exact ⟨[c], t, rfl, by simp, by simpa using hc, h⟩
      · obtain ⟨u, v, rfl, -, hall, hv⟩ := ih.mp h
        refine ⟨c :: u, v, rfl, by simp, ?_, hv⟩
        intro d hd
        rcases List.mem_cons.mp hd with rfl | hd
        · exact hc
        · exact hall d hd
    · rintro ⟨u, v, h, hu, hall, hv⟩
      cases u with
      | nil => exact absurd rfl hu
      | cons d u =>
        simp only [List.cons_append, List.cons.injEq] at h
        obtain ⟨rfl, rfl⟩ := h
        refine ⟨hall c (List.mem_cons_self _ _), ?_⟩
        cases u with
        | nil => left; simpa using hv
        | cons e u =>
          right
          exact ih.mpr ⟨e :: u, v, rfl, by simp, fun x hx => hall x (List.mem_cons_of_mem _ hx), hv⟩

theorem naoEspacoNemArroba_iff (c : Char) :
    naoEspacoNemArroba c = true ↔ jsEspaco c = false ∧ c ≠ '@' := by
  simp [naoEspacoNemArroba]

/-- The pattern accepts exactly the strings `A@B.C` with `A`, `B`, `C` non-empty
runs of characters that are neither whitespace nor `@`. -/
theorem emailRegexTest_iff_partes (email : String) :
    emailRegexTest email = true ↔
      ∃ A B C : List Char, email.data = A ++ '@' :: (B ++ '.' :: C) ∧
        A ≠ [] ∧ B ≠ [] ∧ C ≠ [] ∧
        (∀ c ∈ A, naoEspacoNemArroba c = true) ∧ (∀ c ∈ B, naoEspacoNemArroba c = true) ∧
        (∀ c ∈ C, naoEspacoNemArroba c = true) := by
  unfold emailRegexTest emailRegex
  constructor
  · intro h
    obtain ⟨A, v1, h1, hA, hAall, h⟩ := (casa_mais_iff _ _ _).mp h
    obtain ⟨c1, v2, rfl, hc1, h⟩ := (casa_um_iff _ _ _).mp h
    obtain ⟨B, v3, rfl, hB, hBall, h⟩ := (casa_mais_iff _ _ _).mp h
    obtain ⟨c2, v4, rfl, hc2, h⟩ := (casa_um_iff _ _ _).mp h
    obtain ⟨C, v5, rfl, hC, hCall, h⟩ := (casa_mais_iff _ _ _).mp h
    have h5 : v5 = [] := (casa_nil_iff _).mp h
    subst h5
    have e1 : c1 = '@' := by simpa using hc1
    have e2 : c2 = '.' := by simpa using hc2
    subst e1 e2
    exact ⟨A, B, C, by simpa using h1, hA, hB, hC, hAall, hBall, hCall⟩
  · rintro ⟨A, B, C, h, hA, hB, hC, hAall, hBall, hCall⟩
    rw [h]
    refine (casa_mais_iff _ _ _).mpr ⟨A, _, rfl, hA, hAall, ?_⟩
    refine (casa_um_iff _ _ _).mpr ⟨'@', _, rfl, by simp, ?_⟩
    refine (casa_mais_iff _ _ _).mpr ⟨B, _, rfl, hB, hBall, ?_⟩
    refine (casa_um_iff _ _ _).mpr ⟨'.', _, rfl, by simp, ?_⟩
    refine (casa_mais_iff _ _ _).mpr ⟨C, [], by simp, hC, hCall, ?_⟩
    exact (casa_nil_iff _).mpr rfl

/-- The pattern of the source accepts exactly the `local@domain.tld` syntax. -/
theorem emailRegexTest_iff_sintaxe (email : String) :
    emailRegexTest email = true ↔ SintaxeLocalDominioTld email := by
  rw [emailRegexTest_iff_partes]
  constructor
  · rintro ⟨A, B, C, h, hA, hB, hC, hAall, hBall, hCall⟩
    have nA : ∀ c ∈ A, jsEspaco c = false ∧ c ≠ '@' :=
      fun c hc => (naoEspacoNemArroba_iff c).mp (hAall c hc)
    have nB : ∀ c ∈ B, jsEspaco c = false ∧ c ≠ '@' :=
      fun c hc => (naoEspacoNemArroba_iff c).mp (hBall c hc)
    have nC : ∀ c ∈ C, jsEspaco c = false ∧ c ≠ '@' :=
      fun c hc => (naoEspacoNemArroba_iff c).mp (hCall c hc)
    refine ⟨?_, ?_, A, B ++ '.' :: C, h, hA, B, C, rfl, hB, hC⟩
    · intro c hc
      rw [h] at hc
      simp only [List.mem_append, List.mem_cons] at hc
      rcases hc with hc | rfl | hc | rfl | hc
      · exact (nA c hc).1
      · decide
      · exact (nB c hc).1
      · decide
      · exact (nC c hc).1
    · have cA : A.count '@' = 0 := List.count_eq_zero.mpr (fun hm => (nA _ hm).2 rfl)
      have cB : B.count '@' = 0 := List.count_eq_zero.mpr (fun hm => (nB _ hm).2 rfl)
      have cC : C.count '@' = 0 := List.count_eq_zero.mpr (fun hm => (nC _ hm).2 rfl)
      rw [h]
      simp [List.count_append, List.count_cons, cA, cB, cC]
  · rintro ⟨hws, hcount, loc, dom, h, hloc, a, b, rfl, ha, hb⟩
    rw [h] at hcount
    simp only [List.count_append, List.count_cons, beq_self_eq_true, if_true] at hcount
    have hne : ('.' == '@') = false := by decide
    simp only [hne] at hcount
    have cA : loc.count '@' = 0 := by omega
    have cB : a.count '@' = 0 := by omega
    have cC : b.count '@' = 0 := by omega
    have key : ∀ l : List Char, l.count '@' = 0 → (∀ c ∈ l, c ∈ email.data) →
        ∀ c ∈ l, naoEspacoNemArroba c = true := by
      intro l hl hsub c hc
      refine (naoEspacoNemArroba_iff c).mpr ⟨hws c (hsub c hc), ?_⟩
      rintro rfl
      exact (List.count_eq_zero.mp hl) hc
    refine ⟨loc, a, b, h, hloc, ha, hb, key loc cA ?_, key a cB ?_, key b cC ?_⟩
    · intro c hc; rw [h]; simp [hc]
    · intro c hc; rw [h]; simp [hc]
    · intro c hc; rw [h]; simp [hc]

/-! ## General facts about store operations -/

theorem knex_ops {α : Type} (f : Falhas) (q : Store → α × Store) (w : Mundo) :
    (knex f q w).2.ops = w.ops + 1 := by
  unfold knex
  cases f w.ops <;> rfl

theorem knex_semFalhas {α : Type} (q : Store → α × Store) (w : Mundo) :
    knex semFalhas q w = (Except.ok (q w.store).1, { store := (q w.store).2, ops := w.ops + 1 }) :=
  rfl

theorem faltaOuCurto_false_of_le (s : String) (n : Nat) (hn : 0 < n) (h : n ≤ jsLength s) :
    faltaOuCurto (some s) n = false := by
  cases hs : s.data with
  | nil =>
    simp [jsLength, hs] at h
    omega
  | cons c t =>
    simp only [faltaOuCurto, hs, List.isEmpty, Bool.false_or, decide_eq_false_iff_not]
    omega

theorem faltaOuCurto_true_of_lt (s : String) (n : Nat) (h : jsLength s < n) :
    faltaOuCurto (some s) n = true := by
  simp [faltaOuCurto, h]

theorem emailInvalido_some (email : String) :
    emailInvalido (some email) = true ↔ ¬ SintaxeLocalDominioTld email := by
  rw [← emailRegexTest_iff_sintaxe]
  cases hs : email.data with
  | nil =>
    have : emailRegexTest email = false := by
      unfold emailRegexTest
      rw [hs]
      rfl
    simp [emailInvalido, this]
  | cons c t =>
    simp only [emailInvalido, hs, List.isEmpty, Bool.false_or, Bool.not_eq_true',
      Bool.not_eq_true]

theorem knex_lt {α : Type} (f : Falhas) (q : Store → α × Store) (w : Mundo)
    (r : Except String α) (w1 : Mundo) (h : knex f q w = (r, w1)) : w.ops < w1.ops := by
  have := knex_ops f q w
  rw [h] at this
  simp only at this
  omega

/-- Once both validations pass, user create issues at least one store operation. -/
theorem cadastrarUsuario_ops_lt (f : Falhas) (body : CorpoUsuario) (email : String) (w : Mundo)
    (he : body.email = some email)
    (h1 : faltaOuCurto body.nome 3 = false) (h2 : emailInvalido body.email = false) :
    w.ops < (cadastrarUsuario f body w).2.ops := by
  unfold cadastrarUsuario
  rw [he] at h2
  simp only [h1, h2, Bool.false_eq_true, if_false, he, knexWhere]
  rcases hk : knex f (usuarioPorEmail email) w with ⟨r, w1⟩
  have l1 := knex_lt f _ w r w1 hk
  rcases r with e | o
  · exact l1
  · cases o with
    | some u => exact l1
    | none =>
      simp only
      rcases hk2 : knex f (inserirUsuario body.nome (some email) body.foto) w1 with ⟨r2, w2⟩
      have l2 := knex_lt f _ w1 r2 w2 hk2
      rcases r2 with e | o <;> simp only <;> omega

/-- Once both validations pass, user update issues at least one store operation. -/
theorem atualizarUsuario_ops_lt (f : Falhas) (id : Int) (body : CorpoUsuario) (w : Mundo)
    (h1 : faltaOuCurto body.nome 3 = false) (h2 : emailInvalido body.email = false) :
    w.ops < (atualizarUsuario f id body w).2.ops := by
  unfold atualizarUsuario
  simp only [h1, h2, Bool.false_eq_true, if_false]
  rcases hk : knex f (usuarioPorId id) w with ⟨r, w1⟩
  have l1 := knex_lt f _ w r w1 hk
  rcases r with e | o
  · exact l1
  · cases o with
    | none => exact l1
    | some u =>
      simp only
      rcases hk2 : knex f (atualizarUsuarioOnde id body.nome body.email body.foto) w1 with ⟨r2, w2⟩
      have l2 := knex_lt f _ w1 r2 w2 hk2
      rcases r2 with e | o <;> simp only <;> omega

/-- With a store that never fails, creating a valid user whose e-mail is not
stored appends one row and answers 200 with the projected columns. -/
theorem cadastrarUsuario_novo (nome email : String) (foto : Option String) (w : Mundo)
    (hn : 3 ≤ jsLength nome) (he : SintaxeLocalDominioTld email)
    (hnovo : ∀ u ∈ w.store.usuarios, u.email ≠ some email) :
    cadastrarUsuario semFalhas { nome := some nome, email := some email, foto := foto } w =
      (Saida.resposta 200 (Json.campos { nome := some nome, email := some email, foto := foto }),
       { store :=
           { w.store with
             usuarios := w.store.usuarios ++
               [{ id := w.store.seqUsuarios, nome := some nome, email := some email,
                  foto := foto }],
             seqUsuarios := w.store.seqUsuarios + 1 },
         ops := w.ops + 2 }) := by
  have h1 : faltaOuCurto (some nome) 3 = false := faltaOuCurto_false_of_le nome 3 (by decide) hn
  have h2 : emailInvalido (some email) = false := by
    cases hb : emailInvalido (some email) with
    | false => rfl
    | true => exact absurd he ((emailInvalido_some email).mp hb)
  have hfind : w.store.usuarios.find? (fun u => decide (u.email = some email)) = none := by
    rw [List.find?_eq_none]
    intro u hu
    simpa using hnovo u hu
  unfold cadastrarUsuario
  simp only [h1, h2, Bool.false_eq_true, if_false, knexWhere, knex_semFalhas, usuarioPorEmail,
    hfind, inserirUsuario, primeiro, List.head?, Usuario.campos]

/-- With a store that never fails, creating a valid user whose e-mail is
already stored answers the conflict and changes no row. -/
theorem cadastrarUsuario_conflito (nome email : String) (foto : Option String) (w : Mundo)
    (hn : 3 ≤ jsLength nome) (he : SintaxeLocalDominioTld email)
    (hja : ∃ u ∈ w.store.usuarios, u.email = some email) :
    cadastrarUsuario semFalhas { nome := some nome, email := some email, foto := foto } w =
      (Saida.resposta 400 (Json.texto "O email já existe"),
       { store := w.store, ops := w.ops + 1 }) := by
  have h1 : faltaOuCurto (some nome) 3 = false := faltaOuCurto_false_of_le nome 3 (by decide) hn
  have h2 : emailInvalido (some email) = false := by
    cases hb : emailInvalido (some email) with
    | false => rfl
    | true => exact absurd he ((emailInvalido_some email).mp hb)
  unfold cadastrarUsuario
  simp only [h1, h2, Bool.false_eq_true, if_false, knexWhere, knex_semFalhas, usuarioPorEmail]
  cases hfind : w.store.usuarios.find? (fun u => decide (u.email = some email)) with
  | some u => rfl
  | none =>
    rw [List.find?_eq_none] at hfind
    obtain ⟨u, hu, hue⟩ := hja
    exact absurd (by simpa using hue) (hfind u hu)

/-- In a table with pairwise distinct ids, looking an id up finds the row that has it. -/
theorem find_of_mem_idsDistintos {α : Type} (id : α → Int) (linhas : List α) (a : α) (k : Int)
    (hd : idsDistintos id linhas) (ha : a ∈ linhas) (hk : id a = k) :
    linhas.find? (fun x => decide (id x = k)) = some a := by
  induction linhas with
  | nil => cases ha
  | cons b l ih =>
    unfold idsDistintos at hd
    rw [List.pairwise_cons] at hd
    rcases List.mem_cons.mp ha with rfl | hal
    · simp [List.find?, hk]
    · have hne : id b ≠ k := by
        rw [← hk]
        exact hd.1 a hal
      simp only [List.find?, hne, decide_False]
      exact ih hd.2 hal

/-- Looking up an id that no row has finds nothing. -/
theorem find_none_of_ausente {α : Type} (id : α → Int) (linhas : List α) (k : Int)
    (h : ∀ a ∈ linhas, id a ≠ k) :
    linhas.find? (fun x => decide (id x = k)) = none := by
  rw [List.find?_eq_none]
  intro a ha
  simpa using h a ha

/-- Deleting a user id that no row has: one lookup, no row changed, and the
answer is the not-found message or, if the lookup fails, the error message. -/
theorem excluirUsuario_ausente (f : Falhas) (id : Int) (w : Mundo)
    (h : ∀ u ∈ w.store.usuarios, u.id ≠ id) :
    excluirUsuario f id w =
      ((match f w.ops with
        | some e => Saida.resposta 400 (Json.texto e)
        | none => Saida.resposta 404 (Json.texto "Usuario não encontrado")),
       { store := w.store, ops := w.ops + 1 }) := by
  have hf := find_none_of_ausente Usuario.id w.store.usuarios id h
  unfold excluirUsuario knex
  cases hfw : f w.ops with
  | some e => rfl
  | none => simp only [usuarioPorId, hf]

/-- Deleting a theme id that no row has. -/
theorem excluirTema_ausente (f : Falhas) (id : Int) (w : Mundo)
    (h : ∀ t ∈ w.store.tema, t.id ≠ id) :
    excluirTema f id w =
      ((match f w.ops with
        | some e => Saida.resposta 400 (Json.texto e)
        | none => Saida.resposta 404 (Json.texto "Tema não encontrado.")),
       { store := w.store, ops := w.ops + 1 }) := by
  have hf := find_none_of_ausente Tema.id w.store.tema id h
  unfold excluirTema knex
  cases hfw : f w.ops with
  | some e => rfl
  | none => simp only [temaPorId, hf]

/-- Deleting a post id that no row has. -/
theorem excluirPostagem_ausente (f : Falhas) (id : Int) (w : Mundo)
    (h : ∀ p ∈ w.store.postagem, p.id ≠ id) :
    excluirPostagem f id w =
      ((match f w.ops with
        | some e => Saida.resposta 400 (Json.texto e)
        | none => Saida.resposta 400 (Json.texto "Postagem não encontrada.")),
       { store := w.store, ops := w.ops + 1 }) := by
  have hf := find_none_of_ausente Postagem.id w.store.postagem id h
  unfold excluirPostagem knex
  cases hfw : f w.ops with
  | some e => rfl
  | none => simp only [postagemPorId, hf]

/-- Repeating a request that only counts one operation leaves the rows as they are. -/
theorem repetir_de_contagem (h : Mundo → Saida × Mundo) (s : Store)
    (hh : ∀ k, (h { store := s, ops := k }).2 = { store := s, ops := k + 1 }) (n k : Nat) :
    repetir h n { store := s, ops := k } = { store := s, ops := k + n } := by
  induction n generalizing k with
  | zero => rfl
  | succ n ih =>
    unfold repetir at ih ⊢
    rw [Function.iterate_succ_apply, hh k, ih (k + 1)]
    congr 1
    omega

/-! ## Store failures at the handler boundary -/

theorem knex_inv_ok {α : Type} (f : Falhas) (q : Store → α × Store) (w w1 : Mundo) (a : α)
    (h : knex f q w = (Except.ok a, w1)) : f w.ops = none ∧ w1.ops = w.ops + 1 := by
  unfold knex at h
  cases hf : f w.ops with
  | some e => rw [hf] at h; simp at h
  | none =>
    rw [hf] at h
    simp only [Prod.mk.injEq] at h
    exact ⟨rfl, by rw [← h.2]⟩

theorem knexUpdate_inv_ok {α : Type} (f : Falhas) (vazio : Bool) (q : Store → α × Store)
    (w w1 : Mundo) (a : α) (h : knexUpdate f vazio q w = (Except.ok a, w1)) :
    f w.ops = none ∧ w1.ops = w.ops + 1 := by
  cases vazio with
  | true => simp [knexUpdate] at h
  | false => exact knex_inv_ok f q w w1 a (by simpa [knexUpdate] using h)

theorem knexWhere_inv_ok {α β : Type} (f : Falhas) (v : Option β) (q : β → Store → α × Store)
    (w w1 : Mundo) (a : α) (h : knexWhere f v q w = (Except.ok a, w1)) :
    f w.ops = none ∧ w1.ops = w.ops + 1 := by
  cases v with
  | none => simp [knexWhere] at h
  | some b => exact knex_inv_ok f (q b) w w1 a h

/-- User create catches store failures. -/
theorem cadastrarUsuario_captura (body : CorpoUsuario) :
    CapturaFalhas (fun f w => cadastrarUsuario f body w) := by
  intro f w ⟨k, hk1, hk2, hk3⟩
  simp only at hk2 ⊢
  unfold cadastrarUsuario at hk2 ⊢
  split at hk2
  · rename_i hc
    rw [if_pos hc]
    refine ⟨_, _, ?_, rfl⟩; decide
  · rename_i hc
    rw [if_neg hc]
    split at hk2
    · rename_i hc
      rw [if_pos hc]
      refine ⟨_, _, ?_, rfl⟩; decide
    · rename_i hc
      rw [if_neg hc]
      split at hk2
      · refine ⟨_, _, ?_, rfl⟩; decide
      · refine ⟨_, _, ?_, rfl⟩; decide
      · rename_i w1 heq1
        have h1 := knexWhere_inv_ok f _ _ w w1 _ heq1
        split at hk2
        · refine ⟨_, _, ?_, rfl⟩; decide
        · rename_i a2 w2 heq2
          have h2 := knex_inv_ok f _ w1 w2 _ heq2
          simp only at hk2
          have hk : k = w.ops ∨ k = w1.ops := by omega
          rcases hk with rfl | rfl
          · exact absurd h1.1 hk3
          · exact absurd h2.1 hk3

/-- User get-by-id catches store failures. -/
theorem listarUsuarioPorID_captura (id : Int) :
    CapturaFalhas (fun f w => listarUsuarioPorID f id w) := by
  intro f w ⟨k, hk1, hk2, hk3⟩
  simp only at hk2 ⊢
  unfold listarUsuarioPorID at hk2 ⊢
  split at hk2
  · refine ⟨_, _, ?_, rfl⟩; decide
  · refine ⟨_, _, ?_, rfl⟩; decide
  · rename_i a1 w1 heq1
    have h1 := knex_inv_ok f _ w w1 _ heq1
    simp only at hk2
    have hk : k = w.ops := by omega
    subst hk
    exact absurd h1.1 hk3

/-- User update catches store failures. -/
theorem atualizarUsuario_captura (id : Int) (body : CorpoUsuario) :
    CapturaFalhas (fun f w => atualizarUsuario f id body w) := by
  intro f w ⟨k, hk1, hk2, hk3⟩
  simp only at hk2 ⊢
  unfold atualizarUsuario at hk2 ⊢
  split at hk2
  · rename_i hc
    rw [if_pos hc]
    refine ⟨_, _, ?_, rfl⟩; decide
  · rename_i hc
    rw [if_neg hc]
    split at hk2
    · rename_i hc
      rw [if_pos hc]
      refine ⟨_, _, ?_, rfl⟩; decide
    · rename_i hc
      rw [if_neg hc]
      split at hk2
      · refine ⟨_, _, ?_, rfl⟩; decide
      · refine ⟨_, _, ?_, rfl⟩; decide
      · rename_i a1 w1 heq1
        have h1 := knex_inv_ok f _ w w1 _ heq1
        split at hk2
        · refine ⟨_, _, ?_, rfl⟩; decide
        · rename_i a2 w2 heq2
          have h2 := knex_inv_ok f _ w1 w2 _ heq2
          simp only at hk2
          have hk : k = w.ops ∨ k = w1.ops := by omega
          rcases hk with rfl | rfl
          · exact absurd h1.1 hk3
          · exact absurd h2.1 hk3

/-- User delete catches store failures. -/
theorem excluirUsuario_captura (id : Int) :
    CapturaFalhas (fun f w => excluirUsuario f id w) := by
  intro f w ⟨k, hk1, hk2, hk3⟩
  simp only at hk2 ⊢
  unfold excluirUsuario at hk2 ⊢
  split at hk2
  · refine ⟨_, _, ?_, rfl⟩; decide
  · refine ⟨_, _, ?_, rfl⟩; decide
  · rename_i a1 w1 heq1
    have h1 := knex_inv_ok f _ w w1 _ heq1
    split at hk2
    · refine ⟨_, _, ?_, rfl⟩; decide
    · rename_i a2 w2 heq2
      have h2 := knex_inv_ok f _ w1 w2 _ heq2
      split at hk2
      · rename_i hc
        rw [if_pos hc]
        refine ⟨_, _, ?_, rfl⟩; decide
      · rename_i hc
        rw [if_neg hc]
        simp only at hk2
        have hk : k = w.ops ∨ k = w1.ops := by omega
        rcases hk with rfl | rfl
        · exact absurd h1.1 hk3
        · exact absurd h2.1 hk3

/-- Theme create catches store failures. -/
theorem criarTemas_captura (body : CorpoTema) :
    CapturaFalhas (fun f w => criarTemas f body w) := by
  intro f w ⟨k, hk1, hk2, hk3⟩
  simp only at hk2 ⊢
  unfold criarTemas at hk2 ⊢
  split at hk2
  · rename_i hc
    rw [if_pos hc]
    refine ⟨_, _, ?_, rfl⟩; decide
  · rename_i hc
    rw [if_neg hc]
    split at hk2
    · refine ⟨_, _, ?_, rfl⟩; decide
    · rename_i a1 w1 heq1
      have h1 := knex_inv_ok f _ w w1 _ heq1
      simp only at hk2
      have hk : k = w.ops := by omega
      subst hk
      exact absurd h1.1 hk3

/-- Theme list catches store failures. -/
theorem listarTemas_captura :
    CapturaFalhas listarTemas := by
  intro f w ⟨k, hk1, hk2, hk3⟩
  unfold listarTemas at hk2 ⊢
  split at hk2
  · refine ⟨_, _, ?_, rfl⟩; decide
  · rename_i a1 w1 heq1
    have h1 := knex_inv_ok f _ w w1 _ heq1
    simp only at hk2
    have hk : k = w.ops := by omega
    subst hk
    exact absurd h1.1 hk3

/-- Theme get-by-id catches store failures. -/
theorem listarTemaPorId_captura (id : Int) :
    CapturaFalhas (fun f w => listarTemaPorId f id w) := by
  intro f w ⟨k, hk1, hk2, hk3⟩
  simp only at hk2 ⊢
  unfold listarTemaPorId at hk2 ⊢
  split at hk2
  · refine ⟨_, _, ?_, rfl⟩; decide
  · refine ⟨_, _, ?_, rfl⟩; decide
  · rename_i a1 w1 heq1
    have h1 := knex_inv_ok f _ w w1 _ heq1
    simp only at hk2
    have hk : k = w.ops := by omega
    subst hk
    exact absurd h1.1 hk3

/-- Theme update catches store failures. -/
theorem atualizarTema_captura (id : Int) (body : CorpoTema) :
    CapturaFalhas (fun f w => atualizarTema f id body w) := by
  intro f w ⟨k, hk1, hk2, hk3⟩
  simp only at hk2 ⊢
  unfold atualizarTema at hk2 ⊢
  split at hk2
  · refine ⟨_, _, ?_, rfl⟩; decide
  · refine ⟨_, _, ?_, rfl⟩; decide
  · rename_i a1 w1 heq1
    have h1 := knex_inv_ok f _ w w1 _ heq1
    split at hk2
    · refine ⟨_, _, ?_, rfl⟩; decide
    · rename_i a2 w2 heq2
      have h2 := knexUpdate_inv_ok f _ _ w1 w2 _ heq2
      simp only at hk2
      have hk : k = w.ops ∨ k = w1.ops := by omega
      rcases hk with rfl | rfl
      · exact absurd h1.1 hk3
      · exact absurd h2.1 hk3

/-- Theme delete catches store failures. -/
theorem excluirTema_captura (id : Int) :
    CapturaFalhas (fun f w => excluirTema f id w) := by
  intro f w ⟨k, hk1, hk2, hk3⟩
  simp only at hk2 ⊢
  unfold excluirTema at hk2 ⊢
  split at hk2
  · refine ⟨_, _, ?_, rfl⟩; decide
  · refine ⟨_, _, ?_, rfl⟩; decide
  · rename_i a1 w1 heq1
    have h1 := knex_inv_ok f _ w w1 _ heq1
    split at hk2
    · refine ⟨_, _, ?_, rfl⟩; decide
    · rename_i a2 w2 heq2
      have h2 := knex_inv_ok f _ w1 w2 _ heq2
      simp only at hk2
      have hk : k = w.ops ∨ k = w1.ops := by omega
      rcases hk with rfl | rfl
      · exact absurd h1.1 hk3
      · exact absurd h2.1 hk3

/-- Post create catches store failures. -/
theorem criarPostagem_captura (agora : Nat) (body : CorpoPostagem) :
    CapturaFalhas (fun f w => criarPostagem f agora body w) := by
  intro f w ⟨k, hk1, hk2, hk3⟩
  simp only at hk2 ⊢
  unfold criarPostagem at hk2 ⊢
  split at hk2
  · rename_i hc
    rw [if_pos hc]
    refine ⟨_, _, ?_, rfl⟩; decide
  · rename_i hc
    rw [if_neg hc]
    split at hk2
    · rename_i hc
      rw [if_pos hc]
      refine ⟨_, _, ?_, rfl⟩; decide
    · rename_i hc
      rw [if_neg hc]
      split at hk2
      · refine ⟨_, _, ?_, rfl⟩; decide
      · rename_i a1 w1 heq1
        have h1 := knex_inv_ok f _ w w1 _ heq1
        split at hk2
        · refine ⟨_, _, ?_, rfl⟩; decide
        · rename_i a2 w2 heq2
          have h2 := knexWhere_inv_ok f _ _ w1 w2 _ heq2
          split at hk2
          · refine ⟨_, _, ?_, rfl⟩; decide
          · rename_i a3 w3 heq3
            have h3 := knexWhere_inv_ok f _ _ w2 w3 _ heq3
            split at hk2
            · refine ⟨_, _, ?_, rfl⟩; decide
            · simp only at hk2
              have hk : k = w.ops ∨ k = w1.ops ∨ k = w2.ops := by omega
              rcases hk with rfl | rfl | rfl
              · exact absurd h1.1 hk3
              · exact absurd h2.1 hk3
              · exact absurd h3.1 hk3

/-- Post list catches store failures. -/
theorem listarPostagens_captura :
    CapturaFalhas listarPostagens := by
  intro f w ⟨k, hk1, hk2, hk3⟩
  unfold listarPostagens at hk2 ⊢
  split at hk2
  · refine ⟨_, _, ?_, rfl⟩; decide
  · rename_i a1 w1 heq1
    have h1 := knex_inv_ok f _ w w1 _ heq1
    simp only at hk2
    have hk : k = w.ops := by omega
    subst hk
    exact absurd h1.1 hk3

/-- Post get-by-id catches store failures. -/
theorem listarPostagemPorId_captura (id : Int) :
    CapturaFalhas (fun f w => listarPostagemPorId f id w) := by
  intro f w ⟨k, hk1, hk2, hk3⟩
  simp only at hk2 ⊢
  unfold listarPostagemPorId at hk2 ⊢
  split at hk2
  · refine ⟨_, _, ?_, rfl⟩; decide
  · refine ⟨_, _, ?_, rfl⟩; decide
  · rename_i a1 w1 heq1
    have h1 := knex_inv_ok f _ w w1 _ heq1
    simp only at hk2
    have hk : k = w.ops := by omega
    subst hk
    exact absurd h1.1 hk3

/-- Post update catches store failures. -/
theorem atualizarPostagem_captura (id : Int) (body : CorpoPostagem) :
    CapturaFalhas (fun f w => atualizarPostagem f id body w) := by
  intro f w ⟨k, hk1, hk2, hk3⟩
  simp only at hk2 ⊢
  unfold atualizarPostagem at hk2 ⊢
  split at hk2
  · refine ⟨_, _, ?_, rfl⟩; decide
  · refine ⟨_, _, ?_, rfl⟩; decide
  · rename_i a1 w1 heq1
    have h1 := knex_inv_ok f _ w w1 _ heq1
    split at hk2
    · refine ⟨_, _, ?_, rfl⟩; decide
    · rename_i a2 w2 heq2
      have h2 := knexUpdate_inv_ok f _ _ w1 w2 _ heq2
      split at hk2
      · refine ⟨_, _, ?_, rfl⟩; decide
      · rename_i a3 w3 heq3
        have h3 := knexWhere_inv_ok f _ _ w2 w3 _ heq3
        split at hk2
        · refine ⟨_, _, ?_, rfl⟩; decide
        · rename_i a4 w4 heq4
          have h4 := knexWhere_inv_ok f _ _ w3 w4 _ heq4
          split at hk2
          · refine ⟨_, _, ?_, rfl⟩; decide
          · simp only at hk2
            have hk : k = w.ops ∨ k = w1.ops ∨ k = w2.ops ∨ k = w3.ops := by omega
            rcases hk with rfl | rfl | rfl | rfl
            · exact absurd h1.1 hk3
            · exact absurd h2.1 hk3
            · exact absurd h3.1 hk3
            · exact absurd h4.1 hk3

/-- Post delete catches store failures. -/
theorem excluirPostagem_captura (id : Int) :
    CapturaFalhas (fun f w => excluirPostagem f id w) := by
  intro f w ⟨k, hk1, hk2, hk3⟩
  simp only at hk2 ⊢
  unfold excluirPostagem at hk2 ⊢
  split at hk2
  · refine ⟨_, _, ?_, rfl⟩; decide
  · refine ⟨_, _, ?_, rfl⟩; decide
  · rename_i a1 w1 heq1
    have h1 := knex_inv_ok f _ w w1 _ heq1
    split at hk2
    · refine ⟨_, _, ?_, rfl⟩; decide
    · rename_i a2 w2 heq2
      have h2 := knex_inv_ok f _ w1 w2 _ heq2
      simp only at hk2
      have hk : k = w.ops ∨ k = w1.ops := by omega
      rcases hk with rfl | rfl
      · exact absurd h1.1 hk3
      · exact absurd h2.1 hk3

/-! ## E-mail uniqueness under create and delete -/

/-- User create keeps the e-mails of the table pairwise distinct, whatever the
failures of the store. -/
theorem cadastrarUsuario_emailsUnicos (f : Falhas) (body : CorpoUsuario) (w : Mundo)
    (h : emailsUnicos w.store) : emailsUnicos (cadastrarUsuario f body w).2.store := by
  unfold cadastrarUsuario
  split
  · exact h
  · split
    · exact h
    · cases he : body.email with
      | none => exact h
      | some email =>
        simp only [knexWhere, knex]
        cases hf : f w.ops with
        | some e => exact h
        | none =>
          simp only [usuarioPorEmail]
          cases hfind : w.store.usuarios.find? (fun u => decide (u.email = some email)) with
          | some u => exact h
          | none =>
            simp only
            cases hf2 : f (w.ops + 1) with
            | some e => exact h
            | none =>
              simp only [inserirUsuario]
              unfold emailsUnicos at h ⊢
              rw [List.find?_eq_none] at hfind
              rw [List.pairwise_append]
              refine ⟨h, List.pairwise_singleton _ _, ?_⟩
              intro a ha b hb
              rw [List.mem_singleton] at hb
              subst hb
              simpa using hfind a ha

/-- User delete keeps the e-mails of the table pairwise distinct, whatever the
failures of the store. -/
theorem excluirUsuario_emailsUnicos (f : Falhas) (id : Int) (w : Mundo)
    (h : emailsUnicos w.store) : emailsUnicos (excluirUsuario f id w).2.store := by
  unfold excluirUsuario knex
  cases hf : f w.ops with
  | some e => exact h
  | none =>
    simp only [usuarioPorId]
    cases hfind : w.store.usuarios.find? (fun u => decide (u.id = id)) with
    | none => exact h
    | some u =>
      simp only
      cases hf2 : f (w.ops + 1) with
      | some e => exact h
      | none =>
        have hfiltro : emailsUnicos (apagarUsuarioOnde id w.store).2 := by
          unfold emailsUnicos at h ⊢
          exact List.Pairwise.filter _ h
        simp only
        split <;> exact hfiltro

/-! ## Generated ids stay distinct -/

theorem idsDistintos_append_novo {α : Type} (id : α → Int) (l : List α) (b : α) (n : Int)
    (hd : idsDistintos id l) (hlt : ∀ a ∈ l, id a < n) (hb : id b = n) :
    idsDistintos id (l ++ [b]) ∧ ∀ a ∈ l ++ [b], id a < n + 1 := by
  constructor
  · unfold idsDistintos at hd ⊢
    rw [List.pairwise_append]
    refine ⟨hd, List.pairwise_singleton _ _, ?_⟩
    intro a ha c hc
    rw [List.mem_singleton] at hc
    subst hc
    have := hlt a ha
    omega
  · intro a ha
    rcases List.mem_append.mp ha with ha | ha
    · have := hlt a ha
      omega
    · rw [List.mem_singleton] at ha
      subst ha
      omega

theorem idsDistintos_map {α : Type} (id : α → Int) (g : α → α) (l : List α) (n : Int)
    (hg : ∀ a, id (g a) = id a) (hd : idsDistintos id l) (hlt : ∀ a ∈ l, id a < n) :
    idsDistintos id (l.map g) ∧ ∀ a ∈ l.map g, id a < n := by
  constructor
  · unfold idsDistintos at hd ⊢
    rw [List.pairwise_map]
    refine hd.imp ?_
    intro a b hab
    rw [hg a, hg b]
    exact hab
  · intro a ha
    obtain ⟨c, hc, rfl⟩ := List.mem_map.mp ha
    rw [hg c]
    exact hlt c hc

theorem idsDistintos_filter {α : Type} (id : α → Int) (p : α → Bool) (l : List α) (n : Int)
    (hd : idsDistintos id l) (hlt : ∀ a ∈ l, id a < n) :
    idsDistintos id (l.filter p) ∧ ∀ a ∈ l.filter p, id a < n :=
  ⟨List.Pairwise.filter p hd, fun a ha => hlt a (List.mem_filter.mp ha).1⟩

/-- The empty store has distinct generated ids. -/
theorem idsGerados_vazio : Store.vazio.idsGerados := by
  simp [Store.idsGerados, Store.vazio, idsDistintos]

/-- Every writing query keeps the generated ids distinct. -/
theorem idsGerados_escritas (s : Store) (h : s.idsGerados) (id : Int) (agora : Nat)
    (a b c : Option String) (ui ti : Option Int) :
    (inserirUsuario a b c s).2.idsGerados ∧ (atualizarUsuarioOnde id a b c s).2.idsGerados ∧
    (apagarUsuarioOnde id s).2.idsGerados ∧
    (inserirTema a s).2.idsGerados ∧ (atualizarTemaOnde id a s).2.idsGerados ∧
    (apagarTemaOnde id s).2.idsGerados ∧
    (inserirPostagem agora a b ui ti s).2.idsGerados ∧
    (atualizarPostagemOnde id a b ui ti s).2.idsGerados ∧
    (apagarPostagemOnde id s).2.idsGerados := by
  obtain ⟨⟨hu1, hu2⟩, ⟨ht1, ht2⟩, ⟨hp1, hp2⟩⟩ := h
  refine ⟨⟨?_, ⟨ht1, ht2⟩, ⟨hp1, hp2⟩⟩, ⟨?_, ⟨ht1, ht2⟩, ⟨hp1, hp2⟩⟩,
    ⟨?_, ⟨ht1, ht2⟩, ⟨hp1, hp2⟩⟩, ⟨⟨hu1, hu2⟩, ?_, ⟨hp1, hp2⟩⟩, ⟨⟨hu1, hu2⟩, ?_, ⟨hp1, hp2⟩⟩,
    ⟨⟨hu1, hu2⟩, ?_, ⟨hp1, hp2⟩⟩, ⟨⟨hu1, hu2⟩, ⟨ht1, ht2⟩, ?_⟩, ⟨⟨hu1, hu2⟩, ⟨ht1, ht2⟩, ?_⟩,
    ⟨⟨hu1, hu2⟩, ⟨ht1, ht2⟩, ?_⟩⟩
  · exact idsDistintos_append_novo Usuario.id _ _ _ hu1 hu2 rfl
  · refine idsDistintos_map Usuario.id _ _ _ ?_ hu1 hu2
    intro u
    unfold Usuario.atualizado
    split <;> rfl
  · exact idsDistintos_filter Usuario.id _ _ _ hu1 hu2
  · exact idsDistintos_append_novo Tema.id _ _ _ ht1 ht2 rfl
  · refine idsDistintos_map Tema.id _ _ _ ?_ ht1 ht2
    intro t
    unfold Tema.atualizado
    split <;> rfl
  · exact idsDistintos_filter Tema.id _ _ _ ht1 ht2
  · exact idsDistintos_append_novo Postagem.id _ _ _ hp1 hp2 rfl
  · refine idsDistintos_map Postagem.id _ _ _ ?_ hp1 hp2
    intro p
    unfold Postagem.atualizada
    split <;> rfl
  · exact idsDistintos_filter Postagem.id _ _ _ hp1 hp2

/-! ## Claims -/

/-- C1: when `nome` is missing, empty, or a string of length below 3, user
create and user update both answer 400 with the name-validation message,
whatever the other fields, the id, the store and its failures are, and they
issue no store operation: the world (rows and operation count) is unchanged. -/
theorem c1_nome_invalido_sem_operacao (f : Falhas) (id : Int) (body : CorpoUsuario) (w : Mundo)
    (h : body.nome = none ∨ body.nome = some "" ∨ ∃ s, body.nome = some s ∧ jsLength s < 3) :
    cadastrarUsuario f body w =
        (Saida.resposta 400
          (Json.texto "O nome é obrigatório e deve ter no mínimo 3 caracteres."), w) ∧
    atualizarUsuario f id body w =
        (Saida.resposta 400
          (Json.texto "O nome é obrigatório e deve ter no mínimo 3 caracteres."), w) := by
  have hv : faltaOuCurto body.nome 3 = true := by
    rcases h with h | h | ⟨s, h, hs⟩
    · rw [h]; rfl
    · rw [h]; rfl
    · rw [h]; exact faltaOuCurto_true_of_lt s 3 hs
  constructor
  · unfold cadastrarUsuario
    rw [if_pos hv]
  · unfold atualizarUsuario
    rw [if_pos hv]

/-- Witness of C1 at the two-character name `Al` on the empty store. -/
theorem c1_nome_invalido_sem_operacao_witness :
    cadastrarUsuario semFalhas { nome := some "Al", email := some "al@x.com", foto := none }
        { store := Store.vazio, ops := 0 } =
        (Saida.resposta 400
          (Json.texto "O nome é obrigatório e deve ter no mínimo 3 caracteres."),
         { store := Store.vazio, ops := 0 }) ∧
    atualizarUsuario semFalhas 1 { nome := some "Al", email := some "al@x.com", foto := none }
        { store := Store.vazio, ops := 0 } =
        (Saida.resposta 400
          (Json.texto "O nome é obrigatório e deve ter no mínimo 3 caracteres."),
         { store := Store.vazio, ops := 0 }) :=
  c1_nome_invalido_sem_operacao semFalhas 1
    { nome := some "Al", email := some "al@x.com", foto := none }
    { store := Store.vazio, ops := 0 } (Or.inr (Or.inr ⟨"Al", rfl, by decide⟩))

/-- C2: for a name of length at least 3 and any string `email`, user create and
user update end in the e-mail validation failure (status 400, the e-mail
message, no store operation issued, world unchanged) if and only if `email`
does not have the `local@domain.tld` syntax; with a store that never fails the
e-mail message is answered exactly in that case. -/
theorem c2_email_validacao (f : Falhas) (id : Int) (nome email : String) (foto : Option String)
    (w : Mundo) (hn : 3 ≤ jsLength nome) :
    (cadastrarUsuario f { nome := some nome, email := some email, foto := foto } w =
        (Saida.resposta 400
          (Json.texto "O e-mail é obrigatório e deve ter um formato válido."), w)
      ↔ ¬ SintaxeLocalDominioTld email) ∧
    (atualizarUsuario f id { nome := some nome, email := some email, foto := foto } w =
        (Saida.resposta 400
          (Json.texto "O e-mail é obrigatório e deve ter um formato válido."), w)
      ↔ ¬ SintaxeLocalDominioTld email) ∧
    ((cadastrarUsuario semFalhas { nome := some nome, email := some email, foto := foto } w).1 =
        Saida.resposta 400 (Json.texto "O e-mail é obrigatório e deve ter um formato válido.")
      ↔ ¬ SintaxeLocalDominioTld email) ∧
    ((atualizarUsuario semFalhas id { nome := some nome, email := some email, foto := foto } w).1 =
        Saida.resposta 400 (Json.texto "O e-mail é obrigatório e deve ter um formato válido.")
      ↔ ¬ SintaxeLocalDominioTld email) := by
  have h1 : faltaOuCurto (some nome) 3 = false := faltaOuCurto_false_of_le nome 3 (by decide) hn
  have bad : ∀ g : Falhas, ¬ SintaxeLocalDominioTld email →
      cadastrarUsuario g { nome := some nome, email := some email, foto := foto } w =
        (Saida.resposta 400
          (Json.texto "O e-mail é obrigatório e deve ter um formato válido."), w) ∧
      atualizarUsuario g id { nome := some nome, email := some email, foto := foto } w =
        (Saida.resposta 400
          (Json.texto "O e-mail é obrigatório e deve ter um formato válido."), w) := by
    intro g hs
    have h2 : emailInvalido (some email) = true := (emailInvalido_some email).mpr hs
    constructor
    · unfold cadastrarUsuario
      simp only [h1, h2, Bool.false_eq_true, if_false, if_true]
    · unfold atualizarUsuario
      simp only [h1, h2, Bool.false_eq_true, if_false, if_true]
  have good : SintaxeLocalDominioTld email → emailInvalido (some email) = false := by
    intro hs
    cases hb : emailInvalido (some email) with
    | false => rfl
    | true => exact absurd hs ((emailInvalido_some email).mp hb)
  refine ⟨⟨?_, fun hs => (bad f hs).1⟩, ⟨?_, fun hs => (bad f hs).2⟩,
    ⟨?_, fun hs => by rw [(bad semFalhas hs).1]⟩, ⟨?_, fun hs => by rw [(bad semFalhas hs).2]⟩⟩
  · intro heq hs
    have := cadastrarUsuario_ops_lt f { nome := some nome, email := some email, foto := foto }
      email w rfl h1 (good hs)
    rw [heq] at this
    exact lt_irrefl _ this
  · intro heq hs
    have := atualizarUsuario_ops_lt f id { nome := some nome, email := some email, foto := foto }
      w h1 (good hs)
    rw [heq] at this
    exact lt_irrefl _ this
  · intro heq hs
    have h2 := good hs
    unfold cadastrarUsuario at heq
    simp only [h1, h2, Bool.false_eq_true, if_false, knexWhere, knex_semFalhas] at heq
    cases hfind : (usuarioPorEmail email w.store).1 with
    | none =>
      rw [hfind] at heq
      simp [primeiro, inserirUsuario] at heq
    | some u =>
      rw [hfind] at heq
      simp at heq
  · intro heq hs
    have h2 := good hs
    unfold atualizarUsuario at heq
    simp only [h1, h2, Bool.false_eq_true, if_false, knex_semFalhas] at heq
    cases hfind : (usuarioPorId id w.store).1 with
    | none =>
      rw [hfind] at heq
      simp at heq
    | some u =>
      rw [hfind] at heq
      simp at heq

/-- Witness of C2 at `Ana` with the e-mail `ana@x`, which has no dot after the `@`. -/
theorem c2_email_validacao_witness :
    3 ≤ jsLength "Ana" ∧
    (cadastrarUsuario semFalhas { nome := some "Ana", email := some "ana@x", foto := none }
        { store := Store.vazio, ops := 0 } =
        (Saida.resposta 400
          (Json.texto "O e-mail é obrigatório e deve ter um formato válido."),
         { store := Store.vazio, ops := 0 })
      ↔ ¬ SintaxeLocalDominioTld "ana@x") :=
  ⟨by decide,
   (c2_email_validacao semFalhas 1 "Ana" "ana@x" none { store := Store.vazio, ops := 0 }
      (by decide)).1⟩

/-- C3: with a store that never fails and a body with valid `nome` and `email`:
if no stored user has that e-mail, user create appends exactly one row and
answers 200 with exactly the columns `nome`, `email`, `foto` (no id; `foto`
null when absent); if some stored user has it, the answer is 400 with the
conflict message and no row changes.  Hence an identical second create is
answered with the conflict and exactly one row has that e-mail. -/
theorem c3_cadastro_e_conflito (nome email : String) (foto : Option String) (w : Mundo)
    (hn : 3 ≤ jsLength nome) (he : SintaxeLocalDominioTld email) :
    ((∀ u ∈ w.store.usuarios, u.email ≠ some email) →
      cadastrarUsuario semFalhas { nome := some nome, email := some email, foto := foto } w =
        (Saida.resposta 200
          (Json.campos { nome := some nome, email := some email, foto := foto }),
         { store :=
             { w.store with
               usuarios := w.store.usuarios ++
                 [{ id := w.store.seqUsuarios, nome := some nome, email := some email,
                    foto := foto }],
               seqUsuarios := w.store.seqUsuarios + 1 },
           ops := w.ops + 2 }) ∧
      cadastrarUsuario semFalhas { nome := some nome, email := some email, foto := foto }
          (cadastrarUsuario semFalhas
            { nome := some nome, email := some email, foto := foto } w).2 =
        (Saida.resposta 400 (Json.texto "O email já existe"),
         { store :=
             (cadastrarUsuario semFalhas
               { nome := some nome, email := some email, foto := foto } w).2.store,
           ops := w.ops + 3 }) ∧
      ((cadastrarUsuario semFalhas
          { nome := some nome, email := some email, foto := foto } w).2.store.usuarios.filter
            (fun u => decide (u.email = some email))).length = 1) ∧
    ((∃ u ∈ w.store.usuarios, u.email = some email) →
      cadastrarUsuario semFalhas { nome := some nome, email := some email, foto := foto } w =
        (Saida.resposta 400 (Json.texto "O email já existe"),
         { store := w.store, ops := w.ops + 1 })) := by
  refine ⟨fun hnovo => ?_, cadastrarUsuario_conflito nome email foto w hn he⟩
  have e1 := cadastrarUsuario_novo nome email foto w hn he hnovo
  refine ⟨e1, ?_, ?_⟩
  · rw [e1]
    exact cadastrarUsuario_conflito nome email foto _ hn he
      ⟨{ id := w.store.seqUsuarios, nome := some nome, email := some email, foto := foto },
       by simp, rfl⟩
  · rw [e1]
    have hvazio : w.store.usuarios.filter (fun u => decide (u.email = some email)) = [] := by
      rw [List.filter_eq_nil_iff]
      intro u hu
      simpa using hnovo u hu
    simp [List.filter_append, hvazio]

/-- Witness of C3: `Ana`, `ana@x.com` created twice on the empty store. -/
theorem c3_cadastro_e_conflito_witness :
    3 ≤ jsLength "Ana" ∧ SintaxeLocalDominioTld "ana@x.com" ∧
    cadastrarUsuario semFalhas { nome := some "Ana", email := some "ana@x.com", foto := none }
        { store := Store.vazio, ops := 0 } =
      (Saida.resposta 200
        (Json.campos { nome := some "Ana", email := some "ana@x.com", foto := none }),
       { store :=
           { Store.vazio with
             usuarios := Store.vazio.usuarios ++
               [{ id := Store.vazio.seqUsuarios, nome := some "Ana", email := some "ana@x.com",
                  foto := none }],
             seqUsuarios := Store.vazio.seqUsuarios + 1 },
         ops := 0 + 2 }) :=
  ⟨by decide, (emailRegexTest_iff_sintaxe "ana@x.com").mp (by decide),
   ((c3_cadastro_e_conflito "Ana" "ana@x.com" none { store := Store.vazio, ops := 0 }
      (by decide) ((emailRegexTest_iff_sintaxe "ana@x.com").mp (by decide))).1
      (by intro u hu; simp [Store.vazio] at hu)).1⟩

/-- C4: the e-mail of a stored user is not kept unique by user update.  On the
empty store, creating `Ana` with `ana@x.com`, creating `Bob` with `bob@x.com`
and then updating user 2 to the e-mail `ana@x.com` (a store that never fails)
is accepted and leaves two rows with the same e-mail. -/
theorem c4_atualizar_duplica_email :
    (executarTodos semFalhas
        [PedidoUsuario.criar { nome := some "Ana", email := some "ana@x.com", foto := none },
         PedidoUsuario.criar { nome := some "Bob", email := some "bob@x.com", foto := none },
         PedidoUsuario.atualizar 2
           { nome := some "Bob", email := some "ana@x.com", foto := none }]
        { store := Store.vazio, ops := 0 }).store.usuarios =
      [{ id := 1, nome := some "Ana", email := some "ana@x.com", foto := none },
       { id := 2, nome := some "Bob", email := some "ana@x.com", foto := none }] ∧
    ¬ emailsUnicos
      (executarTodos semFalhas
        [PedidoUsuario.criar { nome := some "Ana", email := some "ana@x.com", foto := none },
         PedidoUsuario.criar { nome := some "Bob", email := some "bob@x.com", foto := none },
         PedidoUsuario.atualizar 2
           { nome := some "Bob", email := some "ana@x.com", foto := none }]
        { store := Store.vazio, ops := 0 }).store := by
  have h : (executarTodos semFalhas
        [PedidoUsuario.criar { nome := some "Ana", email := some "ana@x.com", foto := none },
         PedidoUsuario.criar { nome := some "Bob", email := some "bob@x.com", foto := none },
         PedidoUsuario.atualizar 2
           { nome := some "Bob", email := some "ana@x.com", foto := none }]
        { store := Store.vazio, ops := 0 }).store.usuarios =
      [{ id := 1, nome := some "Ana", email := some "ana@x.com", foto := none },
       { id := 2, nome := some "Bob", email := some "ana@x.com", foto := none }] := by
    decide
  refine ⟨h, ?_⟩
  unfold emailsUnicos
  rw [h]
  simp

/-- C5: when `titulo` is missing or shorter than 5, post create answers 400
with the title message; when `texto` is missing or shorter than 10 it answers
400 with the title message (if the title is invalid too) or the text message.
In both cases no store operation is issued and the world is unchanged,
whatever `usuario_id`, `tema_id`, the store and its failures are. -/
theorem c5_postagem_invalida_sem_operacao (f : Falhas) (agora : Nat) (body : CorpoPostagem)
    (w : Mundo) :
    ((body.titulo = none ∨ ∃ s, body.titulo = some s ∧ jsLength s < 5) →
      criarPostagem f agora body w =
        (Saida.resposta 400
          (Json.texto "O título é obrigatório e deve ter no mínimo 5 caracteres."), w)) ∧
    ((body.texto = none ∨ ∃ s, body.texto = some s ∧ jsLength s < 10) →
      (faltaOuCurto body.titulo 5 = true ∧
        criarPostagem f agora body w =
          (Saida.resposta 400
            (Json.texto "O título é obrigatório e deve ter no mínimo 5 caracteres."), w)) ∨
      (faltaOuCurto body.titulo 5 = false ∧
        criarPostagem f agora body w =
          (Saida.resposta 400
            (Json.texto "O texto é obrigatório e deve ter no mínimo 10 caracteres."), w))) := by
  have curto : ∀ (v : Option String) (n : Nat),
      (v = none ∨ ∃ s, v = some s ∧ jsLength s < n) → faltaOuCurto v n = true := by
    intro v n h
    rcases h with h | ⟨s, h, hs⟩
    · rw [h]; rfl
    · rw [h]; exact faltaOuCurto_true_of_lt s n hs
  constructor
  · intro h
    unfold criarPostagem
    rw [if_pos (curto _ _ h)]
  · intro h
    cases ht : faltaOuCurto body.titulo 5 with
    | true =>
      left
      refine ⟨rfl, ?_⟩
      unfold criarPostagem
      rw [if_pos ht]
    | false =>
      right
      refine ⟨rfl, ?_⟩
      unfold criarPostagem
      simp only [ht, Bool.false_eq_true, if_false]
      rw [if_pos (curto _ _ h)]

/-- Witness of C5 at the four-character title `Oi!!`. -/
theorem c5_postagem_invalida_sem_operacao_witness :
    criarPostagem semFalhas 0
        { titulo := some "Oi!!", texto := some "this is text", usuario_id := some 1,
          tema_id := some 1 }
        { store := Store.vazio, ops := 0 } =
      (Saida.resposta 400
        (Json.texto "O título é obrigatório e deve ter no mínimo 5 caracteres."),
       { store := Store.vazio, ops := 0 }) :=
  (c5_postagem_invalida_sem_operacao semFalhas 0
      { titulo := some "Oi!!", texto := some "this is text", usuario_id := some 1,
        tema_id := some 1 }
      { store := Store.vazio, ops := 0 }).1 (Or.inr ⟨"Oi!!", rfl, by decide⟩)

/-- C6: with a store that never fails, a user `u` stored under `usuario_id` and
a theme `t` stored under `tema_id` (ids distinct within each table), a title
of length at least 5 and a text of length at least 10, post create appends one
row to table `postagem` and answers 200 with the id, title, text and date of
that new row, `usuario_nome` the name of `u` and `tema_descricao` the
description of `t`. -/
theorem c6_postagem_enriquecida (agora : Nat) (titulo texto : String) (usuario_id tema_id : Int)
    (u : Usuario) (t : Tema) (w : Mundo)
    (htit : 5 ≤ jsLength titulo) (htex : 10 ≤ jsLength texto)
    (hdu : idsDistintos Usuario.id w.store.usuarios) (hdt : idsDistintos Tema.id w.store.tema)
    (hu : u ∈ w.store.usuarios) (huid : u.id = usuario_id)
    (ht : t ∈ w.store.tema) (htid : t.id = tema_id) :
    criarPostagem semFalhas agora
        { titulo := some titulo, texto := some texto, usuario_id := some usuario_id,
          tema_id := some tema_id } w =
      (Saida.resposta 200
        (Json.retorno
          { id := w.store.seqPostagem, titulo := some titulo, texto := some texto,
            data := agora, usuario_nome := u.nome, tema_descricao := t.descricao }),
       { store :=
           { w.store with
             postagem := w.store.postagem ++
               [{ id := w.store.seqPostagem, titulo := some titulo, texto := some texto,
                  data := agora, usuario_id := some usuario_id, tema_id := some tema_id }],
             seqPostagem := w.store.seqPostagem + 1 },
         ops := w.ops + 3 }) := by
  have h1 : faltaOuCurto (some titulo) 5 = false :=
    faltaOuCurto_false_of_le titulo 5 (by decide) htit
  have h2 : faltaOuCurto (some texto) 10 = false :=
    faltaOuCurto_false_of_le texto 10 (by decide) htex
  have fu := find_of_mem_idsDistintos Usuario.id w.store.usuarios u usuario_id hdu hu huid
  have ft := find_of_mem_idsDistintos Tema.id w.store.tema t tema_id hdt ht htid
  unfold criarPostagem
  simp only [h1, h2, Bool.false_eq_true, if_false, knexWhere, knex_semFalhas, inserirPostagem,
    nomeDoUsuario, descricaoDoTema, fu, ft, Option.map, montarRetorno, List.head?]

/-- Witness of C6: user 1 is `Ana`, theme 1 is `Tech`. -/
theorem c6_postagem_enriquecida_witness :
    criarPostagem semFalhas 7
        { titulo := some "Hello!", texto := some "this is text", usuario_id := some 1,
          tema_id := some 1 }
        { store :=
            { usuarios := [{ id := 1, nome := some "Ana", email := some "ana@x.com",
                             foto := none }],
              tema := [{ id := 1, descricao := some "Tech" }],
              postagem := [], seqUsuarios := 2, seqTema := 2, seqPostagem := 1 },
          ops := 0 } =
      (Saida.resposta 200
        (Json.retorno
          { id := 1, titulo := some "Hello!", texto := some "this is text", data := 7,
            usuario_nome := some "Ana", tema_descricao := some "Tech" }),
       { store :=
           { usuarios := [{ id := 1, nome := some "Ana", email := some "ana@x.com",
                            foto := none }],
             tema := [{ id := 1, descricao := some "Tech" }],
             postagem := [] ++
               [{ id := 1, titulo := some "Hello!", texto := some "this is text", data := 7,
                  usuario_id := some 1, tema_id := some 1 }],
             seqUsuarios := 2, seqTema := 2, seqPostagem := 1 + 1 },
         ops := 0 + 3 }) :=
  c6_postagem_enriquecida 7 "Hello!" "this is text" 1 1
    { id := 1, nome := some "Ana", email := some "ana@x.com", foto := none }
    { id := 1, descricao := some "Tech" }
    { store :=
        { usuarios := [{ id := 1, nome := some "Ana", email := some "ana@x.com",
                         foto := none }],
          tema := [{ id := 1, descricao := some "Tech" }],
          postagem := [], seqUsuarios := 2, seqTema := 2, seqPostagem := 1 },
      ops := 0 }
    (by decide) (by decide) (by simp [idsDistintos]) (by simp [idsDistintos])
    (by simp) rfl (by simp) rfl

/-- C7: deleting an id that no row of the table has.  With a store that never
fails the answer is the not-found message as a plain string, with status 404
for users and themes and 400 for posts, and it is the same after any number
of repetitions, which leave every row of the store as it was.  Whatever the
failures of the store, the answer has a status other than 200 and a
plain-string body, and no row changes. -/
theorem c7_excluir_ausente (id : Int) (w : Mundo) :
    ((∀ u ∈ w.store.usuarios, u.id ≠ id) →
      (∀ n, (repetir (excluirUsuario semFalhas id) n w).store = w.store ∧
        (excluirUsuario semFalhas id (repetir (excluirUsuario semFalhas id) n w)).1 =
          Saida.resposta 404 (Json.texto "Usuario não encontrado")) ∧
      (∀ f, (excluirUsuario f id w).2.store = w.store ∧
        ∃ st msg, st ≠ 200 ∧ (excluirUsuario f id w).1 = Saida.resposta st (Json.texto msg))) ∧
    ((∀ t ∈ w.store.tema, t.id ≠ id) →
      (∀ n, (repetir (excluirTema semFalhas id) n w).store = w.store ∧
        (excluirTema semFalhas id (repetir (excluirTema semFalhas id) n w)).1 =
          Saida.resposta 404 (Json.texto "Tema não encontrado.")) ∧
      (∀ f, (excluirTema f id w).2.store = w.store ∧
        ∃ st msg, st ≠ 200 ∧ (excluirTema f id w).1 = Saida.resposta st (Json.texto msg))) ∧
    ((∀ p ∈ w.store.postagem, p.id ≠ id) →
      (∀ n, (repetir (excluirPostagem semFalhas id) n w).store = w.store ∧
        (excluirPostagem semFalhas id (repetir (excluirPostagem semFalhas id) n w)).1 =
          Saida.resposta 400 (Json.texto "Postagem não encontrada.")) ∧
      (∀ f, (excluirPostagem f id w).2.store = w.store ∧
        ∃ st msg, st ≠ 200 ∧
          (excluirPostagem f id w).1 = Saida.resposta st (Json.texto msg))) := by
  refine ⟨fun h => ⟨fun n => ?_, fun f => ?_⟩, fun h => ⟨fun n => ?_, fun f => ?_⟩,
    fun h => ⟨fun n => ?_, fun f => ?_⟩⟩
  · have hr := repetir_de_contagem (excluirUsuario semFalhas id) w.store
      (fun k => by rw [excluirUsuario_ausente semFalhas id { store := w.store, ops := k } h])
      n w.ops
    rw [hr, excluirUsuario_ausente semFalhas id { store := w.store, ops := w.ops + n } h]
    exact ⟨rfl, rfl⟩
  · rw [excluirUsuario_ausente f id w h]
    refine ⟨rfl, ?_⟩
    cases f w.ops with
    | some e => exact ⟨400, e, by decide, rfl⟩
    | none => exact ⟨404, _, by decide, rfl⟩
  · have hr := repetir_de_contagem (excluirTema semFalhas id) w.store
      (fun k => by rw [excluirTema_ausente semFalhas id { store := w.store, ops := k } h])
      n w.ops
    rw [hr, excluirTema_ausente semFalhas id { store := w.store, ops := w.ops + n } h]
    exact ⟨rfl, rfl⟩
  · rw [excluirTema_ausente f id w h]
    refine ⟨rfl, ?_⟩
    cases f w.ops with
    | some e => exact ⟨400, e, by decide, rfl⟩
    | none => exact ⟨404, _, by decide, rfl⟩
  · have hr := repetir_de_contagem (excluirPostagem semFalhas id) w.store
      (fun k => by rw [excluirPostagem_ausente semFalhas id { store := w.store, ops := k } h])
      n w.ops
    rw [hr, excluirPostagem_ausente semFalhas id { store := w.store, ops := w.ops + n } h]
    exact ⟨rfl, rfl⟩
  · rw [excluirPostagem_ausente f id w h]
    refine ⟨rfl, ?_⟩
    cases f w.ops with
    | some e => exact ⟨400, e, by decide, rfl⟩
    | none => exact ⟨400, _, by decide, rfl⟩

/-- Witness of C7: deleting user 999 from a store that holds only user 1, three times. -/
theorem c7_excluir_ausente_witness :
    (repetir (excluirUsuario semFalhas 999) 3
        { store :=
            { usuarios := [{ id := 1, nome := some "Ana", email := some "ana@x.com",
                             foto := none }],
              tema := [], postagem := [], seqUsuarios := 2, seqTema := 1, seqPostagem := 1 },
          ops := 0 }).store =
      { usuarios := [{ id := 1, nome := some "Ana", email := some "ana@x.com", foto := none }],
        tema := [], postagem := [], seqUsuarios := 2, seqTema := 1, seqPostagem := 1 } ∧
    (excluirUsuario semFalhas 999
        (repetir (excluirUsuario semFalhas 999) 3
          { store :=
              { usuarios := [{ id := 1, nome := some "Ana", email := some "ana@x.com",
                               foto := none }],
                tema := [], postagem := [], seqUsuarios := 2, seqTema := 1, seqPostagem := 1 },
            ops := 0 })).1 =
      Saida.resposta 404 (Json.texto "Usuario não encontrado") :=
  ((c7_excluir_ausente 999
      { store :=
          { usuarios := [{ id := 1, nome := some "Ana", email := some "ana@x.com",
                           foto := none }],
            tema := [], postagem := [], seqUsuarios := 2, seqTema := 1, seqPostagem := 1 },
        ops := 0 }).1
    (by intro u hu; simp at hu; subst hu; decide)).1 3

/-- C8: when `descricao` is missing or shorter than 3, theme create answers 400
with the validation message and issues no store operation (world unchanged,
whatever the failures of the store); when it has length at least 3 and the
store does not fail, it appends exactly one row to table `tema` and answers
200 with that row, generated id included. -/
theorem c8_criarTemas (f : Falhas) (body : CorpoTema) (w : Mundo) :
    ((body.descricao = none ∨ ∃ s, body.descricao = some s ∧ jsLength s < 3) →
      criarTemas f body w =
        (Saida.resposta 400
          (Json.texto "A descrição é obrigatório e deve ter no mínimo 3 caracteres."), w)) ∧
    (∀ d, body.descricao = some d → 3 ≤ jsLength d →
      criarTemas semFalhas body w =
        (Saida.resposta 200 (Json.tema { id := w.store.seqTema, descricao := some d }),
         { store :=
             { w.store with
               tema := w.store.tema ++ [{ id := w.store.seqTema, descricao := some d }],
               seqTema := w.store.seqTema + 1 },
           ops := w.ops + 1 })) := by
  constructor
  · intro h
    have hv : faltaOuCurto body.descricao 3 = true := by
      rcases h with h | ⟨s, h, hs⟩
      · rw [h]; rfl
      · rw [h]; exact faltaOuCurto_true_of_lt s 3 hs
    unfold criarTemas
    rw [if_pos hv]
  · intro d hd hlen
    have hv : faltaOuCurto (some d) 3 = false := faltaOuCurto_false_of_le d 3 (by decide) hlen
    unfold criarTemas
    simp only [hd, hv, Bool.false_eq_true, if_false, knex_semFalhas, inserirTema, primeiro,
      List.head?]

/-- Witness of C8 at the two-character description `Ci`. -/
theorem c8_criarTemas_witness :
    criarTemas semFalhas { descricao := some "Ci" } { store := Store.vazio, ops := 0 } =
      (Saida.resposta 400
        (Json.texto "A descrição é obrigatório e deve ter no mínimo 3 caracteres."),
       { store := Store.vazio, ops := 0 }) :=
  (c8_criarTemas semFalhas { descricao := some "Ci" } { store := Store.vazio, ops := 0 }).1
    (Or.inr ⟨"Ci", rfl, by decide⟩)

/-- C9: a store failure escapes `listarUsuarios`.  When the query of
`GET /usuarios` fails, the handler sends no response: its promise is rejected
with the error, so this handler does not catch store failures, while
`listarTemas` and `listarPostagens` answer 400 with the message in the same
situation. -/
theorem c9_listarUsuarios_rejeitada :
    listarUsuarios (fun _ => some "connection refused") { store := Store.vazio, ops := 0 } =
      (Saida.rejeitada "connection refused", { store := Store.vazio, ops := 1 }) ∧
    ¬ CapturaFalhas listarUsuarios ∧
    listarTemas (fun _ => some "connection refused") { store := Store.vazio, ops := 0 } =
      (Saida.resposta 400 (Json.texto "connection refused"),
       { store := Store.vazio, ops := 1 }) ∧
    listarPostagens (fun _ => some "connection refused") { store := Store.vazio, ops := 0 } =
      (Saida.resposta 400 (Json.texto "connection refused"),
       { store := Store.vazio, ops := 1 }) := by
  refine ⟨rfl, ?_, rfl, rfl⟩
  intro h
  obtain ⟨st, msg, -, heq⟩ := h (fun _ => some "connection refused")
    { store := Store.vazio, ops := 0 } ⟨0, Nat.le_refl 0, by decide, by simp⟩
  cases heq

/-- C10: get-by-id with a store that never fails, for each resource.  If a row
of the table has the id (ids distinct within the table) the answer is 200
with exactly that stored row, for posts the raw row; if no row has it the
answer is the not-found message as a plain string, with status 400 for users
and posts and 404 for themes.  No row of the store changes in either case. -/
theorem c10_buscar_por_id (id : Int) (w : Mundo) :
    (∀ u, idsDistintos Usuario.id w.store.usuarios → u ∈ w.store.usuarios → u.id = id →
      listarUsuarioPorID semFalhas id w =
        (Saida.resposta 200 (Json.usuario u), { store := w.store, ops := w.ops + 1 })) ∧
    ((∀ u ∈ w.store.usuarios, u.id ≠ id) →
      listarUsuarioPorID semFalhas id w =
        (Saida.resposta 400 (Json.texto "Usuario não encontrado"),
         { store := w.store, ops := w.ops + 1 })) ∧
    (∀ t, idsDistintos Tema.id w.store.tema → t ∈ w.store.tema → t.id = id →
      listarTemaPorId semFalhas id w =
        (Saida.resposta 200 (Json.tema t), { store := w.store, ops := w.ops + 1 })) ∧
    ((∀ t ∈ w.store.tema, t.id ≠ id) →
      listarTemaPorId semFalhas id w =
        (Saida.resposta 404 (Json.texto "Tema não encontrado."),
         { store := w.store, ops := w.ops + 1 })) ∧
    (∀ p, idsDistintos Postagem.id w.store.postagem → p ∈ w.store.postagem → p.id = id →
      listarPostagemPorId semFalhas id w =
        (Saida.resposta 200 (Json.postagem p), { store := w.store, ops := w.ops + 1 })) ∧
    ((∀ p ∈ w.store.postagem, p.id ≠ id) →
      listarPostagemPorId semFalhas id w =
        (Saida.resposta 400 (Json.texto "Postagem não encontrada."),
         { store := w.store, ops := w.ops + 1 })) := by
  refine ⟨fun u hd hu hid => ?_, fun h => ?_, fun t hd ht hid => ?_, fun h => ?_,
    fun p hd hp hid => ?_, fun h => ?_⟩
  · have hf := find_of_mem_idsDistintos Usuario.id w.store.usuarios u id hd hu hid
    unfold listarUsuarioPorID
    simp only [knex_semFalhas, usuarioPorId, hf]
  · have hf := find_none_of_ausente Usuario.id w.store.usuarios id h
    unfold listarUsuarioPorID
    simp only [knex_semFalhas, usuarioPorId, hf]
  · have hf := find_of_mem_idsDistintos Tema.id w.store.tema t id hd ht hid
    unfold listarTemaPorId
    simp only [knex_semFalhas, temaPorId, hf]
  · have hf := find_none_of_ausente Tema.id w.store.tema id h
    unfold listarTemaPorId
    simp only [knex_semFalhas, temaPorId, hf]
  · have hf := find_of_mem_idsDistintos Postagem.id w.store.postagem p id hd hp hid
    unfold listarPostagemPorId
    simp only [knex_semFalhas, postagemPorId, hf]
  · have hf := find_none_of_ausente Postagem.id w.store.postagem id h
    unfold listarPostagemPorId
    simp only [knex_semFalhas, postagemPorId, hf]

/-- Witness of C10: `GET /postagem/999` on a store that holds only post 1. -/
theorem c10_buscar_por_id_witness :
    listarPostagemPorId semFalhas 999
        { store :=
            { usuarios := [], tema := [],
              postagem := [{ id := 1, titulo := some "Hello!", texto := some "this is text",
                             data := 7, usuario_id := some 1, tema_id := some 1 }],
              seqUsuarios := 1, seqTema := 1, seqPostagem := 2 },
          ops := 0 } =
      (Saida.resposta 400 (Json.texto "Postagem não encontrada."),
       { store :=
           { usuarios := [], tema := [],
             postagem := [{ id := 1, titulo := some "Hello!", texto := some "this is text",
                            data := 7, usuario_id := some 1, tema_id := some 1 }],
             seqUsuarios := 1, seqTema := 1, seqPostagem := 2 },
         ops := 0 + 1 }) :=
  (c10_buscar_por_id 999
      { store :=
          { usuarios := [], tema := [],
            postagem := [{ id := 1, titulo := some "Hello!", texto := some "this is text",
                           data := 7, usuario_id := some 1, tema_id := some 1 }],
            seqUsuarios := 1, seqTema := 1, seqPostagem := 2 },
        ops := 0 }).2.2.2.2.2
    (by intro p hp; simp at hp; subst hp; decide)

/-- C11: post create is not atomic.  With a store that never fails (and that
enforces no foreign key), a title of length at least 5, a text of length at
least 10, and a `usuario_id` or a `tema_id` that no stored user or theme has
(or that is absent), the answer is 400 with the message of the runtime error
as a plain string, and yet the table `postagem` has grown by exactly the new
row: the insert is not rolled back and no other table changes. -/
theorem c11_criarPostagem_nao_atomica (agora : Nat) (titulo texto : String)
    (usuario_id tema_id : Option Int) (w : Mundo)
    (htit : 5 ≤ jsLength titulo) (htex : 10 ≤ jsLength texto)
    (haus : (∀ u ∈ w.store.usuarios, some u.id ≠ usuario_id) ∨
      (∀ t ∈ w.store.tema, some t.id ≠ tema_id)) :
    (∃ msg, (msg = erroBindingIndefinido ∨ msg = erroLeitura "nome" ∨
          msg = erroLeitura "descricao") ∧
        (criarPostagem semFalhas agora
          { titulo := some titulo, texto := some texto, usuario_id := usuario_id,
            tema_id := tema_id } w).1 = Saida.resposta 400 (Json.texto msg)) ∧
    (criarPostagem semFalhas agora
        { titulo := some titulo, texto := some texto, usuario_id := usuario_id,
          tema_id := tema_id } w).2.store =
      { w.store with
        postagem := w.store.postagem ++
          [{ id := w.store.seqPostagem, titulo := some titulo, texto := some texto,
             data := agora, usuario_id := usuario_id, tema_id := tema_id }],
        seqPostagem := w.store.seqPostagem + 1 } := by
  have h1 : faltaOuCurto (some titulo) 5 = false :=
    faltaOuCurto_false_of_le titulo 5 (by decide) htit
  have h2 : faltaOuCurto (some texto) 10 = false :=
    faltaOuCurto_false_of_le texto 10 (by decide) htex
  unfold criarPostagem
  simp only [h1, h2, Bool.false_eq_true, if_false, knex_semFalhas, inserirPostagem]
  cases usuario_id with
  | none => exact ⟨⟨_, Or.inl rfl, rfl⟩, rfl⟩
  | some uid =>
    simp only [knexWhere, knex_semFalhas, nomeDoUsuario]
    cases tema_id with
    | none => exact ⟨⟨_, Or.inl rfl, rfl⟩, rfl⟩
    | some tid =>
      simp only [knex_semFalhas, descricaoDoTema]
      cases hfu : w.store.usuarios.find? (fun u => decide (u.id = uid)) with
      | none => exact ⟨⟨_, Or.inr (Or.inl rfl), rfl⟩, rfl⟩
      | some u =>
        cases hft : w.store.tema.find? (fun t => decide (t.id = tid)) with
        | none => exact ⟨⟨_, Or.inr (Or.inr rfl), rfl⟩, rfl⟩
        | some t =>
          exfalso
          have hu := List.find?_some hfu
          have ht := List.find?_some hft
          have mu := List.mem_of_find?_eq_some hfu
          have mt := List.mem_of_find?_eq_some hft
          simp only [decide_eq_true_eq] at hu ht
          rcases haus with h | h
          · exact h u mu (by rw [hu])
          · exact h t mt (by rw [ht])

/-- Witness of C11: on a store with user 1 and theme 1, a post for user 999. -/
theorem c11_criarPostagem_nao_atomica_witness :
    (criarPostagem semFalhas 7
        { titulo := some "Hello!", texto := some "this is text", usuario_id := some 999,
          tema_id := some 1 }
        { store :=
            { usuarios := [{ id := 1, nome := some "Ana", email := some "ana@x.com",
                             foto := none }],
              tema := [{ id := 1, descricao := some "Tech" }],
              postagem := [], seqUsuarios := 2, seqTema := 2, seqPostagem := 1 },
          ops := 0 }).2.store =
      { usuarios := [{ id := 1, nome := some "Ana", email := some "ana@x.com", foto := none }],
        tema := [{ id := 1, descricao := some "Tech" }],
        postagem := [] ++
          [{ id := 1, titulo := some "Hello!", texto := some "this is text", data := 7,
             usuario_id := some 999, tema_id := some 1 }],
        seqUsuarios := 2, seqTema := 2, seqPostagem := 1 + 1 } :=
  (c11_criarPostagem_nao_atomica 7 "Hello!" "this is text" (some 999) (some 1)
      { store :=
          { usuarios := [{ id := 1, nome := some "Ana", email := some "ana@x.com",
                           foto := none }],
            tema := [{ id := 1, descricao := some "Tech" }],
            postagem := [], seqUsuarios := 2, seqTema := 2, seqPostagem := 1 },
        ops := 0 }
      (by decide) (by decide)
      (Or.inl (by intro u hu; simp at hu; subst hu; decide))).2

/-- C12, as amended: post update with a store that never fails.  If no post has
the id the answer is 400 with the not-found message and no row changes.  If
post `p` has the id and the body names a stored user `u` and a stored theme
`t` (ids distinct within each table), no validation is applied: a `titulo` or
`texto` present in the body, however short, replaces the stored value, and an
absent one leaves the stored value as it is.  The row of `p` gets `usuario_id`
and `tema_id` of the body and keeps its id and date, every row with another id
is left as it is, and the answer is 200 with the id, title, text and date of
the updated row, the name of `u` and the description of `t`. -/
theorem c12_atualizarPostagem (id : Int) (body : CorpoPostagem) (w : Mundo) :
    ((∀ p ∈ w.store.postagem, p.id ≠ id) →
      atualizarPostagem semFalhas id body w =
        (Saida.resposta 400 (Json.texto "Postagem não encontrada."),
         { store := w.store, ops := w.ops + 1 })) ∧
    (∀ (p : Postagem) (u : Usuario) (t : Tema) (uid tid : Int),
      idsDistintos Postagem.id w.store.postagem → p ∈ w.store.postagem → p.id = id →
      body.usuario_id = some uid → body.tema_id = some tid →
      idsDistintos Usuario.id w.store.usuarios → u ∈ w.store.usuarios → u.id = uid →
      idsDistintos Tema.id w.store.tema → t ∈ w.store.tema → t.id = tid →
      atualizarPostagem semFalhas id body w =
        (Saida.resposta 200
          (Json.retorno
            { id := p.id, titulo := manter body.titulo p.titulo,
              texto := manter body.texto p.texto, data := p.data,
              usuario_nome := u.nome, tema_descricao := t.descricao }),
         { store :=
             { w.store with
               postagem := w.store.postagem.map
                 (Postagem.atualizada id body.titulo body.texto (some uid) (some tid)) },
           ops := w.ops + 4 }) ∧
      Postagem.atualizada id body.titulo body.texto (some uid) (some tid) p =
        { id := p.id, titulo := manter body.titulo p.titulo,
          texto := manter body.texto p.texto, data := p.data,
          usuario_id := some uid, tema_id := some tid } ∧
      (∀ v, body.titulo = some v → manter body.titulo p.titulo = some v) ∧
      (body.titulo = none → manter body.titulo p.titulo = p.titulo) ∧
      (∀ v, body.texto = some v → manter body.texto p.texto = some v) ∧
      (body.texto = none → manter body.texto p.texto = p.texto) ∧
      ∀ q : Postagem, q.id ≠ id →
        Postagem.atualizada id body.titulo body.texto (some uid) (some tid) q = q) := by
  constructor
  · intro h
    have hf := find_none_of_ausente Postagem.id w.store.postagem id h
    unfold atualizarPostagem
    simp only [knex_semFalhas, postagemPorId, hf]
  · intro p u t uid tid hdp hp hid hbu hbt hdu hu huid hdt ht htid
    have fp := find_of_mem_idsDistintos Postagem.id w.store.postagem p id hdp hp hid
    have fu := find_of_mem_idsDistintos Usuario.id w.store.usuarios u uid hdu hu huid
    have ft := find_of_mem_idsDistintos Tema.id w.store.tema t tid hdt ht htid
    have hp' : Postagem.atualizada id body.titulo body.texto (some uid) (some tid) p =
        { id := p.id, titulo := manter body.titulo p.titulo,
          texto := manter body.texto p.texto, data := p.data,
          usuario_id := some uid, tema_id := some tid } := by
      unfold Postagem.atualizada
      rw [if_pos hid]
      rfl
    refine ⟨?_, hp', ?_, ?_, ?_, ?_, ?_⟩
    · unfold atualizarPostagem
      simp only [knex_semFalhas, postagemPorId, fp, atualizarPostagemOnde, hbu, hbt, knexWhere,
        knexUpdate, Option.isNone, Bool.and_false, Bool.false_eq_true, if_false,
        nomeDoUsuario, descricaoDoTema, fu, ft, Option.map, montarRetorno, List.head?_map,
        List.filter_head?, hp']
    · intro v hv
      rw [hv]
      rfl
    · intro hv
      rw [hv]
      rfl
    · intro v hv
      rw [hv]
      rfl
    · intro hv
      rw [hv]
      rfl
    · intro q hq
      unfold Postagem.atualizada
      rw [if_neg hq]

/-- Witness of C12: post 1 gets the two-character title `Oi`, which replaces
the stored title; the body has no text and the stored text stays. -/
theorem c12_atualizarPostagem_witness :
    atualizarPostagem semFalhas 1
        { titulo := some "Oi", texto := none, usuario_id := some 1, tema_id := some 1 }
        { store :=
            { usuarios := [{ id := 1, nome := some "Ana", email := some "ana@x.com",
                             foto := none }],
              tema := [{ id := 1, descricao := some "Tech" }],
              postagem := [{ id := 1, titulo := some "Hello!", texto := some "this is text",
                             data := 7, usuario_id := some 1, tema_id := some 1 }],
              seqUsuarios := 2, seqTema := 2, seqPostagem := 2 },
          ops := 0 } =
      (Saida.resposta 200
        (Json.retorno
          { id := 1, titulo := manter (some "Oi") (some "Hello!"),
            texto := manter none (some "this is text"), data := 7,
            usuario_nome := some "Ana", tema_descricao := some "Tech" }),
       { store :=
           { usuarios := [{ id := 1, nome := some "Ana", email := some "ana@x.com",
                            foto := none }],
             tema := [{ id := 1, descricao := some "Tech" }],
             postagem :=
               [{ id := 1, titulo := some "Hello!", texto := some "this is text",
                  data := 7, usuario_id := some 1, tema_id := some 1 }].map
                 (Postagem.atualizada 1 (some "Oi") none (some 1) (some 1)),
             seqUsuarios := 2, seqTema := 2, seqPostagem := 2 },
         ops := 0 + 4 }) :=
  ((c12_atualizarPostagem 1
      { titulo := some "Oi", texto := none, usuario_id := some 1, tema_id := some 1 }
      { store :=
            { usuarios := [{ id := 1, nome := some "Ana", email := some "ana@x.com",
                             foto := none }],
              tema := [{ id := 1, descricao := some "Tech" }],
              postagem := [{ id := 1, titulo := some "Hello!", texto := some "this is text",
                             data := 7, usuario_id := some 1, tema_id := some 1 }],
              seqUsuarios := 2, seqTema := 2, seqPostagem := 2 },
          ops := 0 }).2
    { id := 1, titulo := some "Hello!", texto := some "this is text", data := 7,
      usuario_id := some 1, tema_id := some 1 }
    { id := 1, nome := some "Ana", email := some "ana@x.com", foto := none }
    { id := 1, descricao := some "Tech" } 1 1
    (by simp [idsDistintos]) (by simp) rfl rfl rfl
    (by simp [idsDistintos]) (by simp) rfl
    (by simp [idsDistintos]) (by simp) rfl).1

/-- C12 as first stated fails: updating post 1 with the title `Oi` and no text
does not overwrite the text.  The answer is 200 with the stored text
`this is text`, the row keeps that text, and so the outcome is not the one in
which the absent text has replaced the stored one. -/
theorem c12_atualizarPostagem_contraexemplo :
    atualizarPostagem semFalhas 1
        { titulo := some "Oi", texto := none, usuario_id := some 1, tema_id := some 1 }
        { store :=
            { usuarios := [{ id := 1, nome := some "Ana", email := some "ana@x.com",
                             foto := none }],
              tema := [{ id := 1, descricao := some "Tech" }],
              postagem := [{ id := 1, titulo := some "Hello!", texto := some "this is text",
                             data := 7, usuario_id := some 1, tema_id := some 1 }],
              seqUsuarios := 2, seqTema := 2, seqPostagem := 2 },
          ops := 0 } =
      (Saida.resposta 200
        (Json.retorno
          { id := 1, titulo := some "Oi", texto := some "this is text", data := 7,
            usuario_nome := some "Ana", tema_descricao := some "Tech" }),
       { store :=
           { usuarios := [{ id := 1, nome := some "Ana", email := some "ana@x.com",
                            foto := none }],
             tema := [{ id := 1, descricao := some "Tech" }],
             postagem := [{ id := 1, titulo := some "Oi", texto := some "this is text",
                            data := 7, usuario_id := some 1, tema_id := some 1 }],
             seqUsuarios := 2, seqTema := 2, seqPostagem := 2 },
         ops := 4 }) ∧
    atualizarPostagem semFalhas 1
        { titulo := some "Oi", texto := none, usuario_id := some 1, tema_id := some 1 }
        { store :=
            { usuarios := [{ id := 1, nome := some "Ana", email := some "ana@x.com",
                             foto := none }],
              tema := [{ id := 1, descricao := some "Tech" }],
              postagem := [{ id := 1, titulo := some "Hello!", texto := some "this is text",
                             data := 7, usuario_id := some 1, tema_id := some 1 }],
              seqUsuarios := 2, seqTema := 2, seqPostagem := 2 },
          ops := 0 } ≠
      (Saida.resposta 200
        (Json.retorno
          { id := 1, titulo := some "Oi", texto := none, data := 7,
            usuario_nome := some "Ana", tema_descricao := some "Tech" }),
       { store :=
           { usuarios := [{ id := 1, nome := some "Ana", email := some "ana@x.com",
                            foto := none }],
             tema := [{ id := 1, descricao := some "Tech" }],
             postagem := [{ id := 1, titulo := some "Oi", texto := none,
                            data := 7, usuario_id := some 1, tema_id := some 1 }],
             seqUsuarios := 2, seqTema := 2, seqPostagem := 2 },
         ops := 4 }) := by
  decide

end Generation
